import Mathlib

/-!
Verification of the Diagnostico_Hardware diagnostic utility.

This file gives a shallow embedding, in Lean 4, of the parts of the
repository that its specification makes claims about:

* `src/tests/usb_test.py`   — USB throughput test (speed measurement,
  integrity hashing, USB-generation classification, result life cycle);
* `src/tests/keyboard_test.py` — keyboard test (pressed-key set, counter,
  completion eligibility);
* `src/tests/webcam_test.py` / `src/tests/audio_test.py` — confirmation
  driven tests;
* `src/core/hardware_info.py` — hardware collector;
* `src/core/report_generator.py` — report assembly and summary;
* `src/gui/main_window.py` — test orchestration (queue, running flag)
  and report-generation gating.

Effectful Python code is embedded as explicit state passing: the outcome
of every OS/subprocess/measurement interaction is an input of the Lean
function, and widget state that the code reads back (button enabled,
result dict) is part of an explicit state record.  Machine floats are
modelled as rationals.
-/

namespace DiagHW


/-! ## USB test — pure measurement kernels (`src/tests/usb_test.py`) -/

/-- `USBTest._determine_usb_type` (usb_test.py lines 628–639): classifies a
measured throughput (MB/s) into a USB generation by fixed speed bands. -/
def determine_usb_type (speed_mbps : ℚ) : String :=
  if speed_mbps < 35 then "USB 2.0 (até 480 Mbps)"
  else if speed_mbps < 450 then "USB 3.2 Gen 1 (5 Gbps)"
  else if speed_mbps < 1100 then "USB 3.2 Gen 2 (10 Gbps)"
  else if speed_mbps < 2500 then "USB4/Thunderbolt (20 Gbps)"
  else "USB4/Thunderbolt (40 Gbps)"

/-- Speed of one timed copy: file size in MB over elapsed seconds, `0` when
the elapsed time is not positive (usb_test.py `if elapsed > 0 else 0`). -/
def copy_speed (file_size_mb elapsed : ℚ) : ℚ :=
  if 0 < elapsed then file_size_mb / elapsed else 0

/-- `USBTest._measure_write_speed` (usb_test.py lines 609–626): the source
file is copied to the destination twice; the elapsed time of each copy is
an input here.  The function returns the minimum of the two per-copy
speeds. -/
def measure_write_speed (file_size_mb elapsed1 elapsed2 : ℚ) : ℚ :=
  min (copy_speed file_size_mb elapsed1) (copy_speed file_size_mb elapsed2)

/-- Environment of one per-size pass of `USBTest._run_advanced_test`
(usb_test.py lines 386–428): the SHA-256 hash of the generated source file,
the hash of the file after it was copied to the device, and the measured
elapsed times / speeds of that pass.  Hashes are abstract hex digests. -/
structure PassEnv where
  originalHash : String
  copiedHash : String
  writeSpeed : ℚ
  readSpeed : ℚ
deriving DecidableEq, Repr

/-- Result record of one per-size pass (usb_test.py lines 423–428). -/
structure PassResult where
  write_speed : ℚ
  read_speed : ℚ
  integrity : Bool
deriving DecidableEq, Repr

/-- One iteration of the per-size loop (usb_test.py lines 412–428):
`integrity = (original_hash == copied_hash)`. -/
def run_pass (p : PassEnv) : PassResult :=
  { write_speed := p.writeSpeed
    read_speed := p.readSpeed
    integrity := p.originalHash == p.copiedHash }

/-- Aggregated outcome of the measurement phase of
`USBTest._run_advanced_test` (usb_test.py lines 445–473). -/
structure AdvancedOutcome where
  final_write : ℚ
  final_read : ℚ
  all_integrity : Bool
  usb_type : String
  success : Bool
deriving DecidableEq, Repr

/-- Average of a list of rationals, as `sum(...) / len(results)`. -/
def listAvg (l : List ℚ) : ℚ := (l.foldl (· + ·) 0) / l.length

/-- Final aggregation of `USBTest._run_advanced_test` (usb_test.py lines
445–473): averages the per-pass speeds, takes the conjunction of the
per-pass integrity flags, classifies the larger of the two averages, and
records `success := all_integrity`. -/
def run_advanced_test (passes : List PassEnv) : AdvancedOutcome :=
  let results := passes.map run_pass
  let final_write := listAvg (results.map (·.write_speed))
  let final_read := listAvg (results.map (·.read_speed))
  let all_integrity := results.all (·.integrity)
  { final_write := final_write
    final_read := final_read
    all_integrity := all_integrity
    usb_type := determine_usb_type (max final_write final_read)
    success := all_integrity }

/-! ## Report generator (`src/core/report_generator.py`) -/

/-- Python-dict assignment `d[k] = v` on a string-keyed dict, viewed as an
association list in insertion order: if the key is present its value is
replaced in place, otherwise the binding is appended at the end. -/
def dictInsert {α : Type} (m : List (String × α)) (k : String) (v : α) :
    List (String × α) :=
  match m with
  | [] => [(k, v)]
  | (k1, v1) :: rest =>
    if k1 = k then (k1, v) :: rest else (k1, v1) :: dictInsert rest k v

/-- Python-dict lookup `d[k]` / `d.get(k)`. -/
def dictLookup {α : Type} (m : List (String × α)) (k : String) : Option α :=
  match m with
  | [] => none
  | (k1, v1) :: rest => if k1 = k then some v1 else dictLookup rest k

/-- The `result` dict every test module hands to
`ReportGenerator.add_test_result` (usb_test.py line 30, keyboard_test.py
line 23, webcam_test.py line 26, audio_test.py line 27). -/
structure TestResultR where
  success : Bool
  message : String
  error : Option String
deriving DecidableEq, Repr

/-- Floor of a rational (`Int.fdiv` floors the division of the reduced
numerator by the positive denominator). -/
def ratFloor (q : ℚ) : ℤ := Int.fdiv q.num q.den

/-- Banker's rounding of a rational to the nearest integer, as used by
CPython's fixed-point float formatting. -/
def roundHalfEven (q : ℚ) : ℤ :=
  let f := ratFloor q
  if q - f < 1 / 2 then f
  else if (1 : ℚ) / 2 < q - f then f + 1
  else if f % 2 = 0 then f else f + 1

/-- The `:.2f` format specifier applied to a non-negative value: two
decimal digits, zero padded. -/
def formatFixed2 (q : ℚ) : String :=
  let n := (roundHalfEven (q * 100)).toNat
  toString (n / 100) ++ "." ++ (if n % 100 < 10 then "0" else "") ++ toString (n % 100)

/-- The summary block of `ReportGenerator._generate_report_content`
(report_generator.py lines 210–221): totals, success/failure counts and
the success rate over the recorded `test_results` dict. -/
def summaryLines (test_results : List (String × TestResultR)) : List String :=
  if test_results.isEmpty then
    ["Nenhum teste foi executado"]
  else
    let total_tests := test_results.length
    let successful_tests := (test_results.filter (fun kv => kv.2.success)).length
    let success_rate : ℚ :=
      if 0 < total_tests then ((successful_tests : ℚ) / (total_tests : ℚ)) * 100 else 0
    ["Total de Testes: " ++ toString total_tests,
     "Testes com Sucesso: " ++ toString successful_tests,
     "Testes com Falha: " ++ toString (total_tests - successful_tests),
     "Taxa de Sucesso: " ++ formatFixed2 success_rate ++ "%"]

/-- The per-test detail block (report_generator.py lines 197–203). -/
def testDetailLines (test_details : List (String × String)) : List String :=
  if test_details.isEmpty then
    ["Nenhum teste foi executado", ""]
  else
    test_details.flatMap (fun kv => [kv.2, ""])

/-- A run of 80 copies of a character (`"=" * 80`, `"-" * 80`). -/
def repeatChar (c : Char) (n : Nat) : String := String.mk (List.replicate n c)

/-- "Não disponível", the placeholder literal. -/
def naStr : String := "Não disponível"

/-- The `motherboard` entry of the hardware dict as the report renders it
(report_generator.py lines 106–111); fields are optional because the
renderer reads them with `.get(..., default)`. -/
structure MBDict where
  manufacturer : Option String
  model : Option String
  serial_number : Option String
deriving Repr

/-- The `cpu` entry (report_generator.py lines 114–118). -/
structure CPUDict where
  brand : Option String
  model : Option String
deriving Repr

/-- One RAM module entry (report_generator.py lines 129–133). -/
structure RAMModuleDict where
  banklabel : Option String
  size : Option String
  speed : Option String
deriving Repr

/-- The `ram` entry (report_generator.py lines 121–136). -/
structure RAMDict where
  total : Option String
  modules : Option (List RAMModuleDict)
deriving Repr

/-- A `disks` list element: the renderer distinguishes dict entries from
arbitrary values with `isinstance(disk, dict)` (report_generator.py lines
141–145). -/
inductive DiskEntry where
  | asDict (model : Option String) (size : Option String)
  | asRaw (s : String)
deriving Repr

/-- A `gpu` list element (report_generator.py lines 151–155). -/
inductive GPUEntry where
  | asDict (model : Option String)
  | asRaw (s : String)
deriving Repr

/-- The `display` entry (report_generator.py lines 161–164). -/
structure DisplayDict where
  resolution : Option String
deriving Repr

/-- The `tpm` entry (report_generator.py lines 167–172). -/
structure TPMDict where
  version : Option String
  status : Option String
  manufacturer : Option String
deriving Repr

/-- The `bluetooth` entry (report_generator.py lines 175–179). -/
structure BTDict where
  device_name : Option String
  device_status : Option String
deriving Repr

/-- The `wifi` entry (report_generator.py lines 182–187). -/
structure WifiDict where
  adapter_name : Option String
  adapter_status : Option String
  connected_ssid : Option String
deriving Repr

/-- The hardware-info dict handed to the report generator.  A category key
that is absent from the dict is `none`. -/
structure HardwareDict where
  motherboard : Option MBDict
  cpu : Option CPUDict
  ram : Option RAMDict
  disks : Option (List DiskEntry)
  gpu : Option (List GPUEntry)
  display : Option DisplayDict
  tpm : Option TPMDict
  bluetooth : Option BTDict
  wifi : Option WifiDict
deriving Repr

/-- One rendered RAM-module line (report_generator.py lines 129–133),
with `i` the 1-based position used for the `BANK {i}` fallback label. -/
def ramModuleLine (iAndM : Nat × RAMModuleDict) : String :=
  iAndM.2.banklabel.getD ("BANK " ++ toString iAndM.1) ++ " : "
    ++ iAndM.2.size.getD "N/A GB" ++ " " ++ iAndM.2.speed.getD "N/A MHz"

/-- One rendered disk line (report_generator.py lines 142–145). -/
def diskLine (iAndD : Nat × DiskEntry) : String :=
  match iAndD.2 with
  | .asDict model size =>
    "   Disco" ++ toString iAndD.1 ++ ": " ++ model.getD "N/A" ++ " - " ++ size.getD "N/A"
  | .asRaw s => "   Disco " ++ toString iAndD.1 ++ ": " ++ s

/-- One rendered GPU line (report_generator.py lines 152–155). -/
def gpuLine (iAndG : Nat × GPUEntry) : String :=
  match iAndG.2 with
  | .asDict model => "  GPU " ++ toString iAndG.1 ++ ": " ++ model.getD "N/A"
  | .asRaw s => "  GPU" ++ toString iAndG.1 ++ ": " ++ s

/-- The hardware block of `_generate_report_content` (report_generator.py
lines 104–190) for a non-empty hardware dict: each present category is
rendered in the fixed order motherboard, CPU, RAM, disks, GPU, display,
TPM, Bluetooth, Wi-Fi, each section followed by a blank line; the disk and
GPU sections are additionally skipped when their list is empty
(`and self.hardware_info['disks']`). -/
def hardwareLines (hd : HardwareDict) : List String :=
  (match hd.motherboard with
   | some mb =>
     ["Placa-Mãe:",
      "  Fabricante: " ++ mb.manufacturer.getD naStr,
      "  Modelo: " ++ mb.model.getD naStr,
      "  Número de Série: " ++ mb.serial_number.getD naStr, ""]
   | none => [])
  ++ (match hd.cpu with
      | some c =>
        ["Processador:",
         "  Marca: " ++ c.brand.getD naStr,
         "  Modelo: " ++ c.model.getD naStr, ""]
      | none => [])
  ++ (match hd.ram with
      | some r =>
        ["Memória RAM:", "  Total: " ++ r.total.getD "Não disponivel"]
        ++ (match r.modules.getD [] with
            | [] => [" Não foi possivel obter informações da memória"]
            | ms => (List.enumFrom 1 ms).map ramModuleLine)
        ++ [""]
      | none => [])
  ++ (match hd.disks with
      | some [] | none => []
      | some ds => "Discos:" :: (List.enumFrom 1 ds).map diskLine ++ [""])
  ++ (match hd.gpu with
      | some [] | none => []
      | some gs => "Placas de Vídeo:" :: (List.enumFrom 1 gs).map gpuLine ++ [""])
  ++ (match hd.display with
      | some d => ["Display:", "  Resolução: " ++ d.resolution.getD naStr, ""]
      | none => [])
  ++ (match hd.tpm with
      | some t =>
        ["TPM:",
         "  Versão: " ++ t.version.getD naStr,
         "  Status: " ++ t.status.getD naStr,
         "  Fabricante: " ++ t.manufacturer.getD naStr, ""]
      | none => [])
  ++ (match hd.bluetooth with
      | some b =>
        ["Bluetooth:",
         "  Dispositivo: " ++ b.device_name.getD naStr,
         "  Status: " ++ b.device_status.getD naStr, ""]
      | none => [])
  ++ (match hd.wifi with
      | some w =>
        ["Wi-Fi:",
         "  Adaptador: " ++ w.adapter_name.getD naStr,
         "  Status: " ++ w.adapter_status.getD naStr,
         "  SSID: " ++ w.connected_ssid.getD naStr, ""]
      | none => [])

/-- State of `ReportGenerator` (report_generator.py lines 15–21).  The
hardware-info and identification dicts start out empty (falsy): the
hardware dict is an `Option` (`none` is the empty dict), identification
is a flag plus its three fields; an unset output directory is the empty
string (Python `None` and `""` are both falsy in
`self.output_directory or ...`). -/
structure ReportGenState where
  hardware_info : Option HardwareDict
  identificationSet : Bool
  dateTimeField : String
  technicianField : String
  workbenchField : String
  test_results : List (String × TestResultR)
  test_details : List (String × String)
  output_directory : String
deriving Repr

/-- `ReportGenerator.__init__`: empty dicts, no output directory. -/
def initReportGen : ReportGenState :=
  { hardware_info := none
    identificationSet := false
    dateTimeField := ""
    technicianField := ""
    workbenchField := ""
    test_results := []
    test_details := []
    output_directory := "" }

/-- `ReportGenerator.add_test_result` (report_generator.py lines 31–34):
dict assignment into `test_results` and `test_details` under the test
name. -/
def add_test_result (g : ReportGenState) (test_name : String)
    (result : TestResultR) (formatted_result : String) : ReportGenState :=
  { g with
    test_results := dictInsert g.test_results test_name result
    test_details := dictInsert g.test_details test_name formatted_result }

/-- A run of `add_test_result` calls, applied in order. -/
def applyTestResults (ops : List (String × TestResultR × String))
    (g : ReportGenState) : ReportGenState :=
  ops.foldl (fun g o => add_test_result g o.1 o.2.1 o.2.2) g

/-- The values the identification block renders (report_generator.py lines
79–84): the stored fields when identification was set, the fallback line
otherwise. -/
def identLines (g : ReportGenState) : List String :=
  if g.identificationSet then
    ["Data e Hora: " ++ g.dateTimeField,
     "Nome do Técnico: " ++ g.technicianField,
     "ID da Bancada: " ++ g.workbenchField]
  else
    ["Informações de identificação não disponíveis"]

/-- Environment read by `_generate_report_content` that comes from outside
the program: the `platform.*` query results of report_generator.py lines
93–95. -/
structure ReportEnv where
  platformLine : String
  archLine : String
  nodeLine : String
deriving Repr

/-- The `content` list built by `ReportGenerator._generate_report_content`
(report_generator.py lines 64–227): header, identification block, system
block, hardware block, per-test detail blocks, summary, footer. -/
def reportLines (env : ReportEnv) (g : ReportGenState) : List String :=
  (
    [repeatChar '=' 80, "RELATÓRIO DE DIAGNÓSTICO DE HARDWARE", repeatChar '=' 80, ""]
    ++ [repeatChar '-' 80, "INFORMAÇÕES DE IDENTIFICAÇÃO", repeatChar '-' 80]
    ++ identLines g ++ [""]
    ++ [repeatChar '-' 80, "INFORMAÇÕES DO SISTEMA", repeatChar '-' 80]
    ++ ["Sistema Operacional: " ++ env.platformLine,
        "Arquitetura: " ++ env.archLine,
        "Nome do Computador: " ++ env.nodeLine, ""]
    ++ [repeatChar '-' 80, "INFORMAÇÕES DE HARDWARE", repeatChar '-' 80]
    ++ (match g.hardware_info with
        | some hd => hardwareLines hd
        | none => ["Informações de hardware não disponíveis", ""])
    ++ [repeatChar '-' 80, "RESULTADOS DOS TESTES", repeatChar '-' 80]
    ++ testDetailLines g.test_details
    ++ [repeatChar '-' 80, "RESUMO DOS TESTES", repeatChar '-' 80]
    ++ summaryLines g.test_results
    ++ ["", repeatChar '=' 80, "FIM DO RELATÓRIO", repeatChar '=' 80])

/-- `_generate_report_content`'s return value: the lines joined with
newlines (report_generator.py line 228). -/
def generate_report_content (env : ReportEnv) (g : ReportGenState) : String :=
  String.intercalate "\n" (reportLines env g)

/-- `os.path.join`, with an abstract separator. -/
def joinPath (a b : String) : String := a ++ "/" ++ b

/-- `ReportGenerator.generate_report` (report_generator.py lines 40–62):
picks the output directory (stored one, or the home default when unset),
builds the timestamped file name, and writes the generated content there.
The returned pair is the written file: (path, content). -/
def generate_report (env : ReportEnv) (timestamp home : String)
    (g : ReportGenState) : String × String :=
  let report_dir :=
    if g.output_directory = "" then joinPath home "Diagnostico_Hardware_Reports"
    else g.output_directory
  (joinPath report_dir ("relatorio_" ++ timestamp ++ ".txt"),
   generate_report_content env g)

/-! ## Report generation gate (`src/gui/main_window.py` lines 952–1038) -/

/-- The characters stripped by Python's `str.strip()` with no argument
(ASCII whitespace; the exotic Unicode space classes do not occur in the
claims' inputs). -/
def pyWhitespace : List Char := [' ', '\t', '\n', '\r', Char.ofNat 11, Char.ofNat 12]

/-- Python `s.strip()`. -/
def pyStrip (s : String) : String :=
  String.mk (((s.data.dropWhile (· ∈ pyWhitespace)).reverse.dropWhile
    (· ∈ pyWhitespace)).reverse)

/-- `MainWindow._generate_report` (main_window.py lines 952–1038):
rejects (warning dialog, early return, no file written) when the stripped
technician name or workbench id is empty; otherwise stores the raw field
values as the identification record, installs the hardware info and output
directory, and calls `ReportGenerator.generate_report`, producing a file.
`hw` is the hardware dict the GUI assembles from the collector plus the
interface fields (main_window.py lines 981–1014); `env` carries the
`platform.*` values. -/
def gui_generate_report (technician workbench : String) (g : ReportGenState)
    (env : ReportEnv) (hw : HardwareDict) (now timestamp home savePath : String) :
    Option (String × String) :=
  if pyStrip technician = "" then none
  else if pyStrip workbench = "" then none
  else
    let g1 := { g with
      identificationSet := true
      dateTimeField := now
      technicianField := technician
      workbenchField := workbench
      hardware_info := some hw
      output_directory := savePath }
    some (generate_report env timestamp home g1)

/-! ## Hardware collector (`src/core/hardware_info.py`)

The collector issues subprocess/WMI queries and parses their text output.
Every OS interaction is an input here: `_run_command`/`_run_powershell`
themselves catch every exception and return `""` (hardware_info.py lines
63–81), so the getters see plain strings; calls that can raise inside a
getter's `try` block (json.loads, `cpuinfo.get_cpu_info`,
`screeninfo.get_monitors`, `int(...)`) are modelled by outcome types whose
failure constructors are handled exactly where the Python `except` (or the
enclosing guard) catches them. -/

/-- Outcome of a PowerShell query whose output is then `json.loads`-parsed:
the command produced empty output (so parsing is skipped), non-empty output
on which `json.loads` (or the subsequent attribute access) raises, or
parsed data. -/
inductive QueryOut (α : Type) where
  | empty
  | malformed
  | ok (a : α)
deriving DecidableEq, Repr

/-- A query that failed before producing data. -/
def QueryOut.failed {α : Type} : QueryOut α → Prop
  | .empty => True
  | .malformed => True
  | .ok _ => False

/-- Outcome of a Python call that either raises or returns. -/
inductive PyResult (α : Type) where
  | raises
  | returns (a : α)
deriving DecidableEq, Repr

/-- Python `s.lower()` (ASCII, as in the strings compared here). -/
def pyLower (s : String) : String := String.mk (s.data.map Char.toLower)

/-- Python `s.capitalize()`: first character uppercased, the rest
lowercased. -/
def pyCapitalize (s : String) : String :=
  match s.data with
  | [] => ""
  | c :: t => String.mk (c.toUpper :: t.map Char.toLower)

/-- Python `s.replace(old, new)` on the character list: replaces every
non-overlapping occurrence left to right. -/
def pyReplaceList (old new : List Char) : List Char → List Char
  | [] => []
  | c :: t =>
    if old.isPrefixOf (c :: t) ∧ old ≠ [] then
      new ++ pyReplaceList old new (List.drop (old.length - 1) t)
    else
      c :: pyReplaceList old new t
termination_by l => l.length
decreasing_by
  all_goals simp [List.length_drop]
  omega

/-- Python `s.replace(old, new)`. -/
def pyReplace (s old new : String) : String :=
  String.mk (pyReplaceList old.data new.data s.data)

/-- Python `s.find(pat)` from position `i`: index of the first occurrence,
`-1` when absent. -/
def pyFindFrom (pat : List Char) : List Char → ℕ → ℤ
  | [], i => if pat.isPrefixOf ([] : List Char) then (i : ℤ) else -1
  | c :: t, i => if pat.isPrefixOf (c :: t) then (i : ℤ) else pyFindFrom pat t (i + 1)

/-- Python `s.find(pat)`. -/
def pyFind (s pat : String) : ℤ := pyFindFrom pat.data s.data 0

/-- Split a character list at every occurrence of `c` (keeping empty
parts, as Python `str.split` with an explicit separator does). -/
def splitOnChar (c : Char) : List Char → List (List Char)
  | [] => [[]]
  | x :: t =>
    let r := splitOnChar c t
    if x = c then [] :: r
    else
      match r with
      | [] => [[x]]
      | h :: t2 => (x :: h) :: t2

/-- Python `s.split("\n")`. -/
def pySplitNL (s : String) : List String :=
  (splitOnChar (Char.ofNat 10) s.data).map String.mk

/-- Python `pat in s` (substring containment, as `find` succeeding). -/
def pyContains (s pat : String) : Bool := decide (0 ≤ pyFind s pat)

/-- Python `s[a:b]` for non-negative code-point indices. -/
def pySlice (s : String) (a b : ℕ) : String := String.mk ((s.data.take b).drop a)

/-- Value of a digit string, or `none`. -/
def digitsToNat : List Char → Option ℕ
  | [] => none
  | l => if l.all Char.isDigit then
      some (l.foldl (fun acc c => acc * 10 + (c.toNat - 48)) 0)
    else none

/-- Python `int(s)`: strips whitespace, accepts an optional sign followed
by digits, raises (here: `none`) otherwise. -/
def pyParseInt (s : String) : Option ℤ :=
  match (pyStrip s).data with
  | '+' :: rest => (digitsToNat rest).map (fun n => (n : ℤ))
  | '-' :: rest => (digitsToNat rest).map (fun n => -(n : ℤ))
  | l => (digitsToNat l).map (fun n => (n : ℤ))

/-- Python `round(q, 2)` (banker's rounding to two decimals). -/
def ratRound2 (q : ℚ) : ℚ := (roundHalfEven (q * 100) : ℚ) / 100

/-- Lexicographic `≤` on (index, key) pairs, as Python compares the tuples
in `sorted([(model_index, "model"), ...])`. -/
def pairLe (a b : ℤ × String) : Bool :=
  if a.1 < b.1 then true
  else if b.1 < a.1 then false
  else ¬ (b.2 < a.2)

/-- Insertion of one pair into a sorted list (stable, ascending). -/
def insortPair (x : ℤ × String) : List (ℤ × String) → List (ℤ × String)
  | [] => [x]
  | y :: t => if pairLe x y then x :: y :: t else y :: insortPair x t

/-- Python `sorted` on (index, key) pairs. -/
def sortPairs (l : List (ℤ × String)) : List (ℤ × String) := l.foldr insortPair []

/-- Parsed JSON of `Get-WmiObject Win32_BaseBoard | ConvertTo-Json`
(fields read with `.get`, so optional). -/
structure MBData where
  manufacturer : Option String
  product : Option String
deriving DecidableEq, Repr

/-- Parsed JSON of one `Win32_PhysicalMemory` module. -/
structure RAMModuleData where
  bankLabel : Option String
  capacity : Option ℤ
  speed : Option ℤ
deriving DecidableEq, Repr

/-- Parsed JSON of `Get-Tpm`. -/
structure TPMData where
  tpmPresent : Option Bool
  manufacturerVersion : Option String
  manufacturerIdTxt : Option String
deriving DecidableEq, Repr

/-- One `screeninfo` monitor. -/
structure MonitorData where
  width : ℤ
  height : ℤ
  is_primary : Bool
deriving DecidableEq, Repr

/-- The `motherboard` category record (hardware_info.py lines 85–89). -/
structure MBInfo where
  manufacturer : String
  model : String
  serial_number : String
deriving DecidableEq, Repr

/-- The `cpu` category record (hardware_info.py lines 117–120). -/
structure CPUInfo where
  brand : String
  model : String
deriving DecidableEq, Repr

/-- One collected RAM module (hardware_info.py lines 186–190). -/
structure RAMModuleInfo where
  banklabel : String
  size : String
  speed : String
deriving DecidableEq, Repr

/-- The `ram` category record (hardware_info.py lines 162–166). -/
structure RAMInfo where
  total : String
  slots_used : String
  modules : List RAMModuleInfo
deriving DecidableEq, Repr

/-- One collected disk (hardware_info.py lines 256–260). -/
structure DiskInfo where
  model : String
  size : String
  type : String
deriving DecidableEq, Repr

/-- One collected GPU (hardware_info.py line 281). -/
structure GPUInfo where
  model : String
deriving DecidableEq, Repr

/-- The `display` category record (hardware_info.py line 289). -/
structure DisplayInfo where
  resolution : String
deriving DecidableEq, Repr

/-- The `tpm` category record (hardware_info.py lines 304–308). -/
structure TPMInfo where
  version : String
  status : String
  manufacturer : String
deriving DecidableEq, Repr

/-- The `bluetooth` category record (hardware_info.py lines 332–335). -/
structure BTInfo where
  device_name : String
  device_status : String
deriving DecidableEq, Repr

/-- The `wifi` category record (hardware_info.py lines 359–363). -/
structure WifiInfo where
  adapter_name : String
  adapter_status : String
  connected_ssid : String
deriving DecidableEq, Repr

/-- The snapshot `get_all_info` returns (hardware_info.py lines 46–61):
one entry per component category. -/
structure Snapshot where
  motherboard : MBInfo
  cpu : CPUInfo
  ram : RAMInfo
  disks : List DiskInfo
  gpu : List GPUInfo
  display : DisplayInfo
  tpm : TPMInfo
  bluetooth : BTInfo
  wifi : WifiInfo
deriving DecidableEq, Repr

/-- The OS/library interactions of one `get_all_info` run, one input per
query (the collector's only effects). -/
structure HWEnv where
  is_windows : Bool
  mbJson : QueryOut MBData
  biosSerial : String
  cpuinfoAvailable : Bool
  cpuBrandRaw : PyResult String
  wmicCpuName : String
  ramJson : QueryOut (Option (List RAMModuleData))
  wmicDiskDrive : String
  wmicVideo : String
  screeninfoAvailable : Bool
  monitors : PyResult (List MonitorData)
  tpmJson : QueryOut TPMData
  btServiceStatus : String
  btDeviceManufacturer : String
  wifiAdapterName : String
  wifiAdapterStatus : String
  wifiSsid : String
deriving Repr

/-- Default `motherboard` record (hardware_info.py lines 85–89). -/
def mbDefault : MBInfo :=
  { manufacturer := naStr, model := naStr, serial_number := naStr }

/-- `HardwareInfo.get_motherboard_info` (hardware_info.py lines 83–113).
The `.malformed` case is the `json.loads`/attribute-access raise inside the
`try`: the `except` catches it with the result dict still at its defaults
and the serial query never runs. -/
def get_motherboard_info (isWin : Bool) (mbJson : QueryOut MBData)
    (serial : String) : MBInfo :=
  if ¬ isWin then mbDefault
  else
    match mbJson with
    | .malformed => mbDefault
    | .empty => if serial ≠ "" then { mbDefault with serial_number := serial } else mbDefault
    | .ok d =>
      let r : MBInfo :=
        { manufacturer := d.manufacturer.getD naStr
          model := d.product.getD naStr
          serial_number := naStr }
      if serial ≠ "" then { r with serial_number := serial } else r

/-- Default `cpu` record. -/
def cpuDefault : CPUInfo := { brand := naStr, model := naStr }

/-- The brand/model split applied to a CPU name (hardware_info.py lines
128–135 and, identically, 147–154). -/
def parseCpuName (full_name : String) : CPUInfo :=
  if pyContains full_name "Intel" then
    { brand := "Intel", model := pyStrip (pyReplace full_name "Intel" "") }
  else if pyContains full_name "AMD" then
    { brand := "AMD", model := pyStrip (pyReplace full_name "AMD" "") }
  else
    { cpuDefault with model := full_name }

/-- `HardwareInfo.get_cpu_info` (hardware_info.py lines 115–158): the
`cpuinfo` library takes priority (an exception there falls through to the
WMI branch); the Windows fallback parses line 1 of `wmic cpu get name`. -/
def get_cpu_info (isWin cpuinfoAvailable : Bool) (brandRaw : PyResult String)
    (wmicOut : String) : CPUInfo :=
  let fallback : CPUInfo :=
    if isWin then
      let lines := pySplitNL wmicOut
      if h : 1 < lines.length then parseCpuName (pyStrip (lines.get ⟨1, h⟩))
      else cpuDefault
    else cpuDefault
  if cpuinfoAvailable then
    match brandRaw with
    | .returns full_name => parseCpuName full_name
    | .raises => fallback
  else fallback

/-- Default `ram` record (hardware_info.py lines 162–166). -/
def ramDefault : RAMInfo := { total := naStr, slots_used := naStr, modules := [] }

/-- One module of the RAM loop (hardware_info.py lines 181–190): the
rendered module record plus its rounded size in GB (`0` for a falsy
capacity). -/
def ramModuleOfData (m : RAMModuleData) : RAMModuleInfo × ℚ :=
  let cap := m.capacity.getD 0
  let size_gb : ℚ := if cap ≠ 0 then ratRound2 ((cap : ℚ) / (1024 ^ 3)) else 0
  ({ banklabel := m.bankLabel.getD "BANK N/A"
     size := formatFixed2 size_gb ++ " GB"
     speed := toString (m.speed.getD 0) ++ " MHz" }, size_gb)

/-- `HardwareInfo.get_ram_info` (hardware_info.py lines 160–200): keeps
defaults unless the PowerShell JSON parsed to a list whose summed module
capacity is positive (`if total_memory_gb > 0`); the `.ok none` case is
parsed JSON that is not a list (`isinstance(data, list)` false). -/
def get_ram_info (isWin : Bool)
    (ramJson : QueryOut (Option (List RAMModuleData))) : RAMInfo :=
  if ¬ isWin then ramDefault
  else
    match ramJson with
    | .empty => ramDefault
    | .malformed => ramDefault
    | .ok none => ramDefault
    | .ok (some data) =>
      let pairs := data.map ramModuleOfData
      let total : ℚ := (pairs.map (·.2)).foldl (· + ·) 0
      if 0 < total then
        { total := formatFixed2 total ++ " GB"
          slots_used := toString data.length
          modules := pairs.map (·.1) }
      else ramDefault

/-- Extraction of the fixed-width columns of one `wmic` output line
(hardware_info.py lines 236–250): for each non-negative sorted column
index, the slice up to the next index (or to the end of the line when the
next index is not larger), stripped. -/
def extractCols (line : String) : List (ℤ × String) → List (String × String)
  | [] => []
  | (idx, key) :: rest =>
    if idx < 0 then extractCols line rest
    else
      let endIdx : ℕ :=
        match rest with
        | (nidx, _) :: _ => if idx < nidx then nidx.toNat else line.length
        | [] => line.length
      (key, pyStrip (pySlice line idx.toNat endIdx)) :: extractCols line rest

/-- The per-line disk record (hardware_info.py lines 232–262): blank lines
are skipped; a `size` column whose text does not parse as an integer makes
`int(...)` raise `ValueError`, caught by `continue` (the disk is dropped);
a missing `size` column defaults to the integer `0`. -/
def diskOfLine (indices : List (ℤ × String)) (line : String) : Option DiskInfo :=
  if pyStrip line = "" then none
  else
    let disk_data := extractCols line indices
    let sizeInt : Option ℤ :=
      match dictLookup disk_data "size" with
      | some s => pyParseInt s
      | none => some 0
    match sizeInt with
    | none => none
    | some n =>
      some
        { model := (dictLookup disk_data "model").getD naStr
          size := formatFixed2 (ratRound2 ((n : ℚ) / (1024 ^ 3))) ++ " GB"
          type := (dictLookup disk_data "mediatype").getD naStr }

/-- `HardwareInfo.get_disk_info` (hardware_info.py lines 202–266): parses
the header of `wmic diskdrive get model,size,mediatype` into sorted column
indices and extracts one record per data line. -/
def get_disk_info (isWin : Bool) (wmicOut : String) : List DiskInfo :=
  if ¬ isWin then []
  else
    let lines := pySplitNL (pyStrip wmicOut)
    match lines with
    | [] => []
    | header :: dataLines =>
      if dataLines = [] then []
      else
        let indices := sortPairs
          [(pyFind (pyLower header) "model", "model"),
           (pyFind (pyLower header) "size", "size"),
           (pyFind (pyLower header) "mediatype", "mediatype")]
        dataLines.filterMap (diskOfLine indices)

/-- `HardwareInfo.get_gpu_info` (hardware_info.py lines 268–285): one
record per non-blank line after the header of
`wmic path Win32_VideoController get name`. -/
def get_gpu_info (isWin : Bool) (wmicOut : String) : List GPUInfo :=
  if ¬ isWin then []
  else
    let lines := pySplitNL (pyStrip wmicOut)
    (lines.drop 1).filterMap fun line =>
      if pyStrip line ≠ "" then some { model := pyStrip line } else none

/-- Default `display` record. -/
def displayDefault : DisplayInfo := { resolution := naStr }

/-- `HardwareInfo.get_display_info` (hardware_info.py lines 287–300): the
primary monitor (or the first) formatted as `WxH`; any raise inside the
`try` keeps the default. -/
def get_display_info (screeninfoAvailable : Bool)
    (monitors : PyResult (List MonitorData)) : DisplayInfo :=
  if screeninfoAvailable then
    match monitors with
    | .raises => displayDefault
    | .returns [] => displayDefault
    | .returns (m0 :: ms) =>
      let primary := ((m0 :: ms).find? (·.is_primary)).getD m0
      { resolution := toString primary.width ++ "x" ++ toString primary.height }
  else displayDefault

/-- Default `tpm` record (hardware_info.py lines 304–308). -/
def tpmDefault : TPMInfo := { version := naStr, status := naStr, manufacturer := naStr }

/-- `HardwareInfo.get_tpm_info` (hardware_info.py lines 302–328). -/
def get_tpm_info (isWin : Bool) (tpmJson : QueryOut TPMData) : TPMInfo :=
  if ¬ isWin then tpmDefault
  else
    match tpmJson with
    | .empty => tpmDefault
    | .malformed => tpmDefault
    | .ok d =>
      if d.tpmPresent.getD false then
        { status := "Presente"
          version := d.manufacturerVersion.getD naStr
          manufacturer := d.manufacturerIdTxt.getD naStr }
      else { tpmDefault with status := "Não presente" }

/-- Default `bluetooth` record (hardware_info.py lines 332–335). -/
def btDefault : BTInfo := { device_name := naStr, device_status := naStr }

/-- `HardwareInfo.get_bluetooth_info` (hardware_info.py lines 330–355):
the service status is compared against "running", any other output —
including the empty string a failed query yields — is stored capitalized;
the manufacturer is stored only when non-empty and not "microsoft". -/
def get_bluetooth_info (isWin : Bool) (statusOut deviceOut : String) : BTInfo :=
  if ¬ isWin then btDefault
  else
    let r1 :=
      if pyLower statusOut = "running" then { btDefault with device_status := "Ativo" }
      else { btDefault with device_status := pyCapitalize statusOut }
    if deviceOut ≠ "" ∧ pyLower deviceOut ≠ "microsoft" then
      { r1 with device_name := deviceOut }
    else r1

/-- Default `wifi` record (hardware_info.py lines 359–363). -/
def wifiDefault : WifiInfo :=
  { adapter_name := naStr, adapter_status := naStr, connected_ssid := naStr }

/-- `HardwareInfo.get_wifi_info` (hardware_info.py lines 357–386): each
field is overwritten only when its query produced non-empty output. -/
def get_wifi_info (isWin : Bool) (adapterName adapterStatus ssid : String) : WifiInfo :=
  if ¬ isWin then wifiDefault
  else
    let r1 :=
      if adapterName ≠ "" then { wifiDefault with adapter_name := adapterName }
      else wifiDefault
    let r2 :=
      if adapterStatus ≠ "" then { r1 with adapter_status := adapterStatus } else r1
    if ssid ≠ "" then { r2 with connected_ssid := ssid } else r2

/-- `HardwareInfo.get_all_info` (hardware_info.py lines 46–61): the nine
category getters, each applied to nothing but its own queries. -/
def get_all_info (e : HWEnv) : Snapshot :=
  { motherboard := get_motherboard_info e.is_windows e.mbJson e.biosSerial
    cpu := get_cpu_info e.is_windows e.cpuinfoAvailable e.cpuBrandRaw e.wmicCpuName
    ram := get_ram_info e.is_windows e.ramJson
    disks := get_disk_info e.is_windows e.wmicDiskDrive
    gpu := get_gpu_info e.is_windows e.wmicVideo
    display := get_display_info e.screeninfoAvailable e.monitors
    tpm := get_tpm_info e.is_windows e.tpmJson
    bluetooth := get_bluetooth_info e.is_windows e.btServiceStatus e.btDeviceManufacturer
    wifi := get_wifi_info e.is_windows e.wifiAdapterName e.wifiAdapterStatus e.wifiSsid }

/-- An environment in which every query fails: every command times out /
returns empty output and every library call raises. -/
def envAllFail : HWEnv :=
  { is_windows := true
    mbJson := .empty
    biosSerial := ""
    cpuinfoAvailable := true
    cpuBrandRaw := .raises
    wmicCpuName := ""
    ramJson := .empty
    wmicDiskDrive := ""
    wmicVideo := ""
    screeninfoAvailable := true
    monitors := .raises
    tpmJson := .empty
    btServiceStatus := ""
    btDeviceManufacturer := ""
    wifiAdapterName := ""
    wifiAdapterStatus := ""
    wifiSsid := "" }

/-! ## Keyboard test (`src/tests/keyboard_test.py`)

The test window holds one button per visual key of the ABNT2 layout
(lines 119–174), the set `pressed_keys` of visual keys already pressed,
the Concluir button's enabled state and the result dict.  The three key
labels that are a bare apostrophe, backslash or backtick in the source are
renamed "Apostrophe", "Backslash" and "Backtick" here; everything else is
verbatim.  Pressing a visual modifier button, or a physical modifier key,
marks every visual variant of that logical key at once (lines 201–242). -/

/-- The `visual_to_logical` entries for the duplicated modifier buttons
(keyboard_test.py lines 122–127 and 154–160). -/
def dualVisuals : List (String × String) :=
  [("Shift (Esq)", "Shift"), ("Shift (Dir)", "Shift"),
   ("Ctrl (Esq)", "Ctrl"), ("Ctrl (Dir)", "Ctrl"),
   ("Alt (Esq)", "Alt"), ("Alt (Dir)", "Alt"),
   ("Win (Esq)", "Win"), ("Win (Dir)", "Win")]

/-- `visual_to_logical` (keyboard_test.py lines 128–174): the eight
modifier buttons map to their logical key, and the backslash key maps to
itself (line 174). -/
def visualToLogical (k : String) : Option String :=
  match dictLookup dualVisuals k with
  | some l => some l
  | none => if k = "Backslash" then some "Backslash" else none

/-- The 88 visual key buttons of the layout (keyboard_test.py lines
130–149), row by row. -/
def keyButtons : List String :=
  ["Esc", "F1", "F2", "F3", "F4", "F5", "F6", "F7", "F8", "F9", "F10", "F11",
   "F12", "PrtSc", "ScrLk", "Pause",
   "Apostrophe", "1", "2", "3", "4", "5", "6", "7", "8", "9", "0", "-", "=",
   "Backspace", "Insert", "Home", "PgUp",
   "Tab", "Q", "W", "E", "R", "T", "Y", "U", "I", "O", "P", "[", "]",
   "Delete", "End", "PgDn",
   "Caps Lock", "A", "S", "D", "F", "G", "H", "J", "K", "L", "Ç", ";",
   "Backtick", "Enter",
   "Shift (Esq)", "Backslash", "Z", "X", "C", "V", "B", "N", "M", ",", ".",
   "/", "Shift (Dir)", "↑",
   "Ctrl (Esq)", "Win (Esq)", "Alt (Esq)", "Space", "Alt (Dir)", "Win (Dir)",
   "Menu", "Ctrl (Dir)", "←", "↓", "→"]

/-- The logical modifier names `_on_key_press` treats specially (line 228). -/
def logicalNames : List String := ["Shift", "Ctrl", "Alt", "Win"]

/-- The visual variants of one logical key: the buttons whose
`visual_to_logical` entry is that logical key. -/
def visualsOfLogic (l : String) : List String :=
  keyButtons.filter (fun v => visualToLogical v = some l)

/-- Keyboard-test state: the pressed set (a Python `set`), the Concluir
button's enabled state, and the result's success flag. -/
structure KbState where
  pressed : Finset String
  completeEnabled : Bool
  success : Bool
deriving DecidableEq

/-- Initial state (keyboard_test.py lines 15–28 and 91–96): nothing
pressed, Concluir disabled, result not successful. -/
def kbInit : KbState := { pressed := ∅, completeEnabled := false, success := false }

/-- `_update_counter` (keyboard_test.py lines 366–375): the Concluir
button is enabled exactly when at least 70 keys are pressed. -/
def updateCounter (s : KbState) : KbState :=
  { s with completeEnabled := decide (70 ≤ s.pressed.card) }

/-- Marking every visual variant of a logical key (keyboard_test.py lines
206–209 and 229–232). -/
def markGroup (l : String) (s : KbState) : KbState :=
  { s with pressed := s.pressed ∪ (visualsOfLogic l).toFinset }

/-- The all-keys check that follows a press (keyboard_test.py lines
211–212, 218–219, 234–235 and 241–242). -/
def afterFullCheck (s : KbState) : KbState :=
  if s.pressed.card = keyButtons.length then { s with completeEnabled := true } else s

/-- `_on_virtual_key_press` (keyboard_test.py lines 201–219): a modifier
button marks its whole group and refreshes the counter; any other known
button not yet pressed is added and the counter refreshed; everything
else is ignored. -/
def on_virtual_key_press (k : String) (s : KbState) : KbState :=
  match visualToLogical k with
  | some l => afterFullCheck (updateCounter (markGroup l s))
  | none =>
    if k ∈ keyButtons ∧ k ∉ s.pressed then
      afterFullCheck (updateCounter { s with pressed := insert k s.pressed })
    else s

/-- `_on_key_press` (keyboard_test.py lines 221–244) applied to the
already-translated `_get_key_string` result (`none` when the key has no
mapping): a logical modifier marks its group; a known button is added
(a set add, with no duplicate guard); in every case the counter is
refreshed and the all-keys check runs. -/
def on_key_press (keyStr : Option String) (s : KbState) : KbState :=
  match keyStr with
  | some ks =>
    if ks ∈ logicalNames then
      afterFullCheck (updateCounter (markGroup ks s))
    else
      let s1 := if ks ∈ keyButtons then { s with pressed := insert ks s.pressed } else s
      afterFullCheck (updateCounter s1)
  | none => afterFullCheck (updateCounter s)

/-- `_complete_test` (keyboard_test.py lines 395–410), reachable only
through the enabled Concluir button: marks the result successful.
`_skip_test` (377–393) and `_on_close` (412–428) mark it failed. -/
def kbClickComplete (s : KbState) : KbState :=
  if s.completeEnabled then { s with success := true } else s

def kbClickSkip (s : KbState) : KbState := { s with success := false }

def kbCloseWindow (s : KbState) : KbState := { s with success := false }

/-- The keyboard test's events. -/
inductive KbEvent where
  | virtualPress (k : String)
  | physicalPress (keyStr : Option String)
  | clickComplete
  | clickSkip
  | closeWindow
deriving DecidableEq

/-- One event step. -/
def kbStep : KbEvent → KbState → KbState
  | .virtualPress k, s => on_virtual_key_press k s
  | .physicalPress ks, s => on_key_press ks s
  | .clickComplete, s => kbClickComplete s
  | .clickSkip, s => kbClickSkip s
  | .closeWindow, s => kbCloseWindow s

/-- `_get_key_string` (keyboard_test.py lines 250–355) never returns a
left/right modifier button label (it returns the logical names "Shift",
"Ctrl", "Alt", "Win" instead), so physical press events never carry one. -/
def validEvent : KbEvent → Prop
  | .physicalPress (some ks) => dictLookup dualVisuals ks = none
  | _ => True

/-- The states a keyboard-test run can reach. -/
inductive KbReach : KbState → Prop where
  | init : KbReach kbInit
  | step (s : KbState) (e : KbEvent) : validEvent e → KbReach s → KbReach (kbStep e s)

/-- The keys a press event adds to the pressed set. -/
def eKeys : KbEvent → Finset String
  | .virtualPress k =>
    match visualToLogical k with
    | some l => (visualsOfLogic l).toFinset
    | none => if k ∈ keyButtons then {k} else ∅
  | .physicalPress none => ∅
  | .physicalPress (some ks) =>
    if ks ∈ logicalNames then (visualsOfLogic ks).toFinset
    else if ks ∈ keyButtons then {ks} else ∅
  | .clickComplete => ∅
  | .clickSkip => ∅
  | .closeWindow => ∅

/-- Run-time invariant of the keyboard test: the Concluir button's state
tracks the counter, pressed modifier groups are complete, and only layout
keys are ever pressed. -/
def KbInv (s : KbState) : Prop :=
  s.completeEnabled = decide (70 ≤ s.pressed.card) ∧
  (∀ v ∈ s.pressed, ∀ l, visualToLogical v = some l →
    ∀ v2 ∈ keyButtons, visualToLogical v2 = some l → v2 ∈ s.pressed) ∧
  ∀ v ∈ s.pressed, v ∈ keyButtons

/-! ## Success provenance of the four test modules (C1)

Each module starts with `result = {success: False, ...}` and assigns
`result['success']` only at the places modelled below; everything else a
run does (progress bars, messages, detail fields) cannot change the flag.
The events of each machine are the code paths that touch the flag or the
gating button state. -/

/-- USB-test events (usb_test.py): the measurement thread finishing its
passes (lines 445–476), the measurement thread raising (lines 478–487,
which also enables the Concluir button), and the three user actions
Concluir (658), Pular (649) and window close (666). -/
inductive USBEvent where
  | measurementDone (passes : List PassEnv)
  | measurementError
  | clickComplete
  | clickSkip
  | closeWindow
deriving DecidableEq

/-- The USB result/button state the events act on. -/
structure USBState where
  success : Bool
  completeEnabled : Bool
deriving DecidableEq

/-- usb_test.py lines 30–35 and 184–190: result not successful, Concluir
disabled. -/
def usbInit : USBState := { success := false, completeEnabled := false }

/-- The USB state transitions: a finished measurement stores
`success := all_integrity` and enables Concluir (lines 459–473 and 487);
an error stores `success := false` and still enables Concluir (478–487);
the enabled Concluir click forces `success := true` (660); skip and close
store `success := false` (652, 669). -/
def usbStep : USBEvent → USBState → USBState
  | .measurementDone passes, _ =>
    { success := (run_advanced_test passes).success, completeEnabled := true }
  | .measurementError, _ => { success := false, completeEnabled := true }
  | .clickComplete, s => if s.completeEnabled then { s with success := true } else s
  | .clickSkip, s => { s with success := false }
  | .closeWindow, s => { s with success := false }

/-- The USB events that justify a successful result: an objective
measurement in which every integrity check passed, or the user's explicit
Concluir click. -/
def usbGoodEvent : USBEvent → Prop
  | .measurementDone passes => (run_advanced_test passes).all_integrity = true
  | .clickComplete => True
  | _ => False

/-- Webcam-test events (webcam_test.py): the user's Sim/Não answer
(lines 248–261), a capture error (205–216, which records only the error),
the Concluir click (292–295, which completes without touching success),
skip (280–290) and close (297–307). -/
inductive WebcamEvent where
  | confirm (ok : Bool)
  | captureError
  | clickComplete
  | clickSkip
  | closeWindow
deriving DecidableEq

structure WebcamState where
  success : Bool
  completeEnabled : Bool
  is_completed : Bool
  errorSet : Bool
deriving DecidableEq

def webcamInit : WebcamState :=
  { success := false, completeEnabled := false, is_completed := false, errorSet := false }

def webcamStep : WebcamEvent → WebcamState → WebcamState
  | .confirm ok, s => { s with success := ok, completeEnabled := true }
  | .captureError, s => { s with errorSet := true }
  | .clickComplete, s => if s.completeEnabled then { s with is_completed := true } else s
  | .clickSkip, s => { s with success := false, is_completed := false }
  | .closeWindow, s => { s with success := false, is_completed := false }

/-- Audio-test events (audio_test.py): the user's Sim/Não answer (lines
357–370), recording/playback errors (251–262, 344–349, which record only
the error), the Concluir click (393–396), skip (381–391) and close
(398–408). -/
inductive AudioEvent where
  | confirm (ok : Bool)
  | recordError
  | playError
  | clickComplete
  | clickSkip
  | closeWindow
deriving DecidableEq

structure AudioState where
  success : Bool
  completeEnabled : Bool
  is_completed : Bool
  errorSet : Bool
deriving DecidableEq

def audioInit : AudioState :=
  { success := false, completeEnabled := false, is_completed := false, errorSet := false }

def audioStep : AudioEvent → AudioState → AudioState
  | .confirm ok, s => { s with success := ok, completeEnabled := true }
  | .recordError, s => { s with errorSet := true }
  | .playError, s => { s with errorSet := true }
  | .clickComplete, s => if s.completeEnabled then { s with is_completed := true } else s
  | .clickSkip, s => { s with success := false, is_completed := false }
  | .closeWindow, s => { s with success := false, is_completed := false }

/-! ## Test orchestration (`src/gui/main_window.py` lines 697–950)

The GUI holds a `tests_running` flag, a FIFO `test_queue` of test ids and
the recorded results.  `_run_selected_tests`/`_run_all_tests` start a run
(both validate, check the flag, refill the queue and call
`_execute_next_test`; `_run_all_tests` is the special case whose selection
is every checkbox).  `_execute_next_test` pops one id: a known id whose
module initializes successfully starts executing (one live test window); a
failed initialization or an unknown id advances to the next id.  Each
test's completion callback records the result and calls
`_execute_next_test` again.  The per-dispatch `initialize()` outcome is an
oracle input. -/

/-- A test identifier in the queue. -/
inductive TestId where
  | keyboard
  | usb
  | webcam
  | audio
  | other (s : String)
deriving DecidableEq, Repr

/-- The ids `_execute_next_test` dispatches (main_window.py lines
792–799); anything else falls into the skip branch (lines 800–802). -/
def isKnownTest : TestId → Bool
  | .keyboard => true
  | .usb => true
  | .webcam => true
  | .audio => true
  | .other _ => false

/-- Orchestrator state: the `tests_running` flag, the queue, the number of
test windows currently executing, and the recorded results. -/
structure OrchState where
  tests_running : Bool
  queue : List TestId
  runningCount : ℕ
  results : List (TestId × Bool)
deriving DecidableEq, Repr

/-- Initial state (`MainWindow.__init__`): idle, empty queue. -/
def initOrch : OrchState :=
  { tests_running := false, queue := [], runningCount := 0, results := [] }

/-- `_execute_next_test` (main_window.py lines 773–802) on an explicit
queue: an empty queue clears the running flag ("all tests complete"); a
known id whose module initializes starts executing; a failed
initialization (lines 827–834 etc.) or an unknown id (line 802) advances
to the next id. -/
def execNextAux (initOk : TestId → Bool) : List TestId → OrchState → OrchState
  | [], s => { s with queue := [], tests_running := false }
  | t :: rest, s =>
    if isKnownTest t ∧ initOk t then
      { s with queue := rest, runningCount := s.runningCount + 1 }
    else execNextAux initOk rest s

/-- `_execute_next_test` on the state's own queue. -/
def execute_next_test (initOk : TestId → Bool) (s : OrchState) : OrchState :=
  execNextAux initOk s.queue s

/-- `_run_selected_tests` (main_window.py lines 697–738): rejected when
identification is invalid, when nothing is selected, or when a run is
already in progress; otherwise the flag is set, the queue refilled with
the selection and the first test dispatched.  (`_run_all_tests`, lines
740–771, is this with `selected` = all checkbox ids.) -/
def run_selected_tests (identValid : Bool) (selected : List TestId)
    (initOk : TestId → Bool) (s : OrchState) : OrchState :=
  if identValid = false then s
  else if selected = [] then s
  else if s.tests_running then s
  else execute_next_test initOk { s with tests_running := true, queue := selected }

/-- `_handle_test_completion` (main_window.py lines 915–950): fires when
an executing test finishes (a no-op input when none is executing, which
the GUI cannot produce); the result is recorded and the next queued test
dispatched. -/
def handle_test_completion (initOk : TestId → Bool) (t : TestId) (ok : Bool)
    (s : OrchState) : OrchState :=
  if s.runningCount = 0 then s
  else
    execute_next_test initOk
      { s with runningCount := s.runningCount - 1, results := s.results ++ [(t, ok)] }

/-- The states the orchestrator can reach from start-up through any
sequence of run requests and test completions. -/
inductive OrchReach : OrchState → Prop where
  | init : OrchReach initOrch
  | run (s : OrchState) (identValid : Bool) (selected : List TestId)
      (initOk : TestId → Bool) : OrchReach s →
      OrchReach (run_selected_tests identValid selected initOk s)
  | complete (s : OrchState) (initOk : TestId → Bool) (t : TestId) (ok : Bool) :
      OrchReach s → OrchReach (handle_test_completion initOk t ok s)

/-- The single-flight invariant: at most one test executing, and only
while the running flag is set. -/
def OrchInv (s : OrchState) : Prop :=
  s.runningCount ≤ 1 ∧ (s.runningCount = 1 → s.tests_running = true)

/-! ## Theorems -/

/-- C4: the classification bands.  40 MB/s is Gen 1, 20 MB/s is USB 2.0,
900 MB/s is Gen 2; generally speeds below 35 classify as USB 2.0, speeds in
[35, 450) as USB 3.2 Gen 1, and speeds in [450, 1100) as USB 3.2 Gen 2. -/
theorem usb_type_classification :
    determine_usb_type 40 = "USB 3.2 Gen 1 (5 Gbps)" ∧
    determine_usb_type 20 = "USB 2.0 (até 480 Mbps)" ∧
    determine_usb_type 900 = "USB 3.2 Gen 2 (10 Gbps)" ∧
    (∀ s : ℚ, s < 35 → determine_usb_type s = "USB 2.0 (até 480 Mbps)") ∧
    (∀ s : ℚ, 35 ≤ s → s < 450 → determine_usb_type s = "USB 3.2 Gen 1 (5 Gbps)") ∧
    (∀ s : ℚ, 450 ≤ s → s < 1100 → determine_usb_type s = "USB 3.2 Gen 2 (10 Gbps)") := by
  refine ⟨by decide, by decide, by decide, ?_, ?_, ?_⟩
  · intro s hs
    simp [determine_usb_type, hs]
  · intro s h35 h450
    simp [determine_usb_type, h450, not_lt.mpr h35]
  · intro s h450 h1100
    have h35 : ¬ s < 35 := not_lt.mpr (le_trans (by norm_num) h450)
    simp [determine_usb_type, h1100, not_lt.mpr h450, h35]

/-- C4 witness: the band statements of `usb_type_classification` applied at
the concrete speed 30 MB/s. -/
theorem usb_type_classification_witness :
    determine_usb_type 30 = "USB 2.0 (até 480 Mbps)" :=
  usb_type_classification.2.2.2.1 30 (by norm_num)

/-- C5: each pass's integrity flag is true exactly when the source hash
equals the copied hash; the aggregated integrity flag depends only on the
hashes (not on any measured speed); and if any pass's hashes differ then
the aggregated integrity and the measurement-phase success are both
false. -/
theorem usb_integrity_check :
    (∀ p : PassEnv, (run_pass p).integrity = true ↔ p.originalHash = p.copiedHash) ∧
    (∀ passes : List PassEnv,
      (run_advanced_test passes).all_integrity
        = passes.all (fun p => p.originalHash == p.copiedHash)) ∧
    (∀ passes : List PassEnv, (∃ p ∈ passes, p.originalHash ≠ p.copiedHash) →
      (run_advanced_test passes).all_integrity = false ∧
      (run_advanced_test passes).success = false) := by
  have key : ∀ passes : List PassEnv,
      (run_advanced_test passes).all_integrity
        = passes.all (fun p => p.originalHash == p.copiedHash) := by
    intro passes
    show ((passes.map run_pass).all (·.integrity)) = _
    induction passes with
    | nil => rfl
    | cons p rest ih => simp [run_pass, List.all_cons, ih]
  refine ⟨?_, key, ?_⟩
  · intro p
    simp [run_pass]
  · intro passes ⟨p, hp, hne⟩
    have hall : (run_advanced_test passes).all_integrity = false := by
      rw [key, List.all_eq_false]
      exact ⟨p, hp, by simp [hne]⟩
    exact ⟨hall, by simpa [run_advanced_test] using hall⟩

/-- C5 witness: `usb_integrity_check` applied to a concrete two-pass run
in which the second copy's hash differs from the source hash. -/
theorem usb_integrity_check_witness :
    (run_advanced_test
        [{ originalHash := "aa", copiedHash := "aa", writeSpeed := 120, readSpeed := 300 },
         { originalHash := "aa", copiedHash := "ab", writeSpeed := 120, readSpeed := 300 }]).success
      = false :=
  (usb_integrity_check.2.2 _
    ⟨{ originalHash := "aa", copiedHash := "ab", writeSpeed := 120, readSpeed := 300 },
      by simp, by decide⟩).2

/-- C6: the write-speed measurement returns the minimum of the two
per-copy speeds; it is therefore at most each individual speed; each
per-copy speed is the size divided by the elapsed time when the latter is
positive, and 0 otherwise. -/
theorem usb_write_speed_min :
    ∀ size t1 t2 : ℚ,
      measure_write_speed size t1 t2
        = min (copy_speed size t1) (copy_speed size t2) ∧
      measure_write_speed size t1 t2 ≤ copy_speed size t1 ∧
      measure_write_speed size t1 t2 ≤ copy_speed size t2 ∧
      (0 < t1 → copy_speed size t1 = size / t1) ∧
      (¬ 0 < t1 → copy_speed size t1 = 0) := by
  intro size t1 t2
  refine ⟨rfl, min_le_left _ _, min_le_right _ _, ?_, ?_⟩
  · intro h
    simp [copy_speed, h]
  · intro h
    simp [copy_speed, h]

/-- C6 witness: `usb_write_speed_min` at a 100 MB file copied in 4 s and
then 5 s: the reported speed is the slower copy's 20 MB/s. -/
theorem usb_write_speed_min_witness :
    measure_write_speed 100 4 5 = min (copy_speed 100 4) (copy_speed 100 5) ∧
    copy_speed 100 5 = 100 / 5 :=
  ⟨(usb_write_speed_min 100 4 5).1,
   (usb_write_speed_min 100 5 4).2.2.2.1 (by norm_num)⟩

/-! ## Dict-semantics lemmas shared by the report theorems -/

theorem roundHalfEven_natCast (n : ℕ) : roundHalfEven (n : ℚ) = n := by
  unfold roundHalfEven ratFloor
  rw [Rat.num_natCast, Rat.den_natCast]
  simp only [Nat.cast_one, Int.fdiv_one]
  have hz : (n : ℚ) - ((n : ℤ) : ℚ) = 0 := by push_cast; ring
  rw [hz]
  norm_num

theorem formatFixed2_of_mul_eq (q : ℚ) (n : ℕ) (h : q * 100 = (n : ℚ)) :
    formatFixed2 q =
      toString (n / 100) ++ "." ++ (if n % 100 < 10 then "0" else "") ++ toString (n % 100) := by
  unfold formatFixed2
  rw [h, roundHalfEven_natCast]
  simp [Int.toNat_natCast]

theorem dictLookup_dictInsert_self {α : Type} (m : List (String × α)) (k : String) (v : α) :
    dictLookup (dictInsert m k v) k = some v := by
  induction m with
  | nil => simp [dictInsert, dictLookup]
  | cons kv rest ih =>
    by_cases h : kv.1 = k
    · simp [dictInsert, dictLookup, h]
    · simp [dictInsert, dictLookup, h, ih]

theorem keys_dictInsert {α : Type} (m : List (String × α)) (k : String) (v : α) :
    (dictInsert m k v).map Prod.fst =
      if k ∈ m.map Prod.fst then m.map Prod.fst else m.map Prod.fst ++ [k] := by
  induction m with
  | nil => simp [dictInsert]
  | cons kv rest ih =>
    by_cases h : kv.1 = k
    · simp [dictInsert, h]
    · have hne : k ≠ kv.1 := fun he => h he.symm
      by_cases hmem : k ∈ rest.map Prod.fst
      · simp [dictInsert, h, ih, hmem, hne]
      · simp [dictInsert, h, ih, hmem, hne]

theorem toFinset_keys_dictInsert {α : Type} (m : List (String × α)) (k : String) (v : α) :
    ((dictInsert m k v).map Prod.fst).toFinset =
      insert k (m.map Prod.fst).toFinset := by
  rw [keys_dictInsert]
  by_cases hmem : k ∈ m.map Prod.fst
  · simp [hmem, Finset.insert_eq_self.mpr (List.mem_toFinset.mpr hmem)]
  · simp [hmem, List.toFinset_append, Finset.union_comm, ← Finset.insert_eq]

theorem nodup_keys_dictInsert {α : Type} (m : List (String × α)) (k : String) (v : α)
    (h : (m.map Prod.fst).Nodup) : ((dictInsert m k v).map Prod.fst).Nodup := by
  rw [keys_dictInsert]
  by_cases hmem : k ∈ m.map Prod.fst
  · simpa [hmem] using h
  · simp only [hmem, if_false]
    exact List.Nodup.append h (List.nodup_singleton k)
      (by simpa [List.disjoint_singleton] using hmem)

theorem toFinset_keys_applyTestResults (ops : List (String × TestResultR × String))
    (g : ReportGenState) :
    ((applyTestResults ops g).test_results.map Prod.fst).toFinset =
      (g.test_results.map Prod.fst).toFinset ∪ (ops.map (fun o => o.1)).toFinset := by
  induction ops generalizing g with
  | nil => simp [applyTestResults]
  | cons o rest ih =>
    have step : applyTestResults (o :: rest) g
        = applyTestResults rest (add_test_result g o.1 o.2.1 o.2.2) := rfl
    rw [step, ih]
    show ((add_test_result g o.1 o.2.1 o.2.2).test_results.map Prod.fst).toFinset ∪ _ = _
    rw [show (add_test_result g o.1 o.2.1 o.2.2).test_results
          = dictInsert g.test_results o.1 o.2.1 from rfl,
        toFinset_keys_dictInsert]
    simp [Finset.insert_union, Finset.union_insert]

theorem nodup_keys_applyTestResults (ops : List (String × TestResultR × String))
    (g : ReportGenState) (h : (g.test_results.map Prod.fst).Nodup) :
    ((applyTestResults ops g).test_results.map Prod.fst).Nodup := by
  induction ops generalizing g with
  | nil => simpa [applyTestResults] using h
  | cons o rest ih =>
    exact ih (add_test_result g o.1 o.2.1 o.2.2) (nodup_keys_dictInsert _ _ _ h)

/-- C7: for every non-empty recorded result set, the summary block reports
Total = number of recorded results, Success = number of results whose
success flag is true, Failure = Total − Success, and the success rate is
Success/Total as a percentage rendered with two decimals; in particular
for {A: success, B: failure} it reports Total=2, Success=1, Failure=1 and
rate 50.00%. -/
theorem report_summary_counts :
    (∀ rs : List (String × TestResultR), rs ≠ [] →
      summaryLines rs =
        ["Total de Testes: " ++ toString rs.length,
         "Testes com Sucesso: " ++ toString (rs.countP (fun kv => kv.2.success)),
         "Testes com Falha: " ++ toString (rs.length - rs.countP (fun kv => kv.2.success)),
         "Taxa de Sucesso: "
           ++ formatFixed2 (((rs.countP (fun kv => kv.2.success) : ℚ) / (rs.length : ℚ)) * 100)
           ++ "%"]) ∧
    summaryLines
        [("A", { success := true, message := "", error := none }),
         ("B", { success := false, message := "", error := none })]
      = ["Total de Testes: 2", "Testes com Sucesso: 1",
         "Testes com Falha: 1", "Taxa de Sucesso: 50.00%"] ∧
    (∀ env g, ∃ pre : List String,
      reportLines env g
        = pre ++ summaryLines g.test_results
            ++ ["", repeatChar '=' 80, "FIM DO RELATÓRIO", repeatChar '=' 80]) := by
  refine ⟨?_, ?_, ?_⟩
  · intro rs h
    have hne : rs.isEmpty = false := by
      cases rs with
      | nil => exact absurd rfl h
      | cons a l => rfl
    have hp : 0 < rs.length := List.length_pos.mpr h
    simp [summaryLines, hne, hp, List.countP_eq_length_filter]
  · simp only [summaryLines, List.filter]
    norm_num
    rw [formatFixed2_of_mul_eq _ 5000 (by norm_num)]
    decide
  · intro env g
    refine ⟨[repeatChar '=' 80, "RELATÓRIO DE DIAGNÓSTICO DE HARDWARE", repeatChar '=' 80, ""]
      ++ [repeatChar '-' 80, "INFORMAÇÕES DE IDENTIFICAÇÃO", repeatChar '-' 80]
      ++ identLines g ++ [""]
      ++ [repeatChar '-' 80, "INFORMAÇÕES DO SISTEMA", repeatChar '-' 80]
      ++ ["Sistema Operacional: " ++ env.platformLine,
          "Arquitetura: " ++ env.archLine,
          "Nome do Computador: " ++ env.nodeLine, ""]
      ++ [repeatChar '-' 80, "INFORMAÇÕES DE HARDWARE", repeatChar '-' 80]
      ++ (match g.hardware_info with
          | some hd => hardwareLines hd
          | none => ["Informações de hardware não disponíveis", ""])
      ++ [repeatChar '-' 80, "RESULTADOS DOS TESTES", repeatChar '-' 80]
      ++ testDetailLines g.test_details
      ++ [repeatChar '-' 80, "RESUMO DOS TESTES", repeatChar '-' 80], ?_⟩
    simp [reportLines]

/-- C7 witness: `report_summary_counts` applied to the one-element result
set {A: success}. -/
theorem report_summary_counts_witness :
    summaryLines [("A", { success := true, message := "", error := none })]
      = ["Total de Testes: 1", "Testes com Sucesso: 1",
         "Testes com Falha: 0", "Taxa de Sucesso: 100.00%"] := by
  have h := report_summary_counts.1
    [("A", { success := true, message := "", error := none })] (by simp)
  rw [h]
  norm_num
  rw [formatFixed2_of_mul_eq _ 10000 (by norm_num)]
  decide

/-- C8: report generation is rejected, producing no file, when the
technician name or workbench id strips to the empty string; when both are
non-empty after stripping, a (path, content) file is produced. -/
theorem report_identification_gate :
    ∀ technician workbench g env hw now ts home savePath,
      ((pyStrip technician = "" ∨ pyStrip workbench = "") →
        gui_generate_report technician workbench g env hw now ts home savePath = none) ∧
      (pyStrip technician ≠ "" → pyStrip workbench ≠ "" →
        ∃ path content,
          gui_generate_report technician workbench g env hw now ts home savePath
            = some (path, content)) := by
  intro technician workbench g env hw now ts home savePath
  constructor
  · rintro (h | h) <;> simp [gui_generate_report, h]
  · intro h1 h2
    unfold gui_generate_report
    rw [if_neg h1, if_neg h2]
    exact ⟨_, _, rfl⟩

/-- C8 witness: `report_identification_gate` at a whitespace-only
technician name (rejected) and at non-blank identification (a report file
is produced). -/
theorem report_identification_gate_witness :
    gui_generate_report "   " "B1" initReportGen
        { platformLine := "", archLine := "", nodeLine := "" }
        { motherboard := none, cpu := none, ram := none, disks := none,
          gpu := none, display := none, tpm := none, bluetooth := none, wifi := none }
        "now" "ts" "home" "" = none ∧
    ∃ path content,
      gui_generate_report "Ana" "B1" initReportGen
          { platformLine := "", archLine := "", nodeLine := "" }
          { motherboard := none, cpu := none, ram := none, disks := none,
            gpu := none, display := none, tpm := none, bluetooth := none, wifi := none }
          "now" "ts" "home" "" = some (path, content) :=
  ⟨(report_identification_gate "   " "B1" _ _ _ _ _ _ _).1 (Or.inl (by decide)),
   (report_identification_gate "Ana" "B1" _ _ _ _ _ _ _).2 (by decide) (by decide)⟩

/-- C10: adding a result under an already-recorded test name replaces the
stored result and formatted detail (the key set, and hence the summary's
total, is unchanged); consequently, after any run of `add_test_result`
calls starting from the empty generator, the number of recorded results —
the report's total test count — equals the number of distinct test names
recorded, not the number of calls. -/
theorem duplicate_result_replaces :
    (∀ (g : ReportGenState) (name : String) (r : TestResultR) (fr : String),
      dictLookup (add_test_result g name r fr).test_results name = some r ∧
      dictLookup (add_test_result g name r fr).test_details name = some fr ∧
      (name ∈ g.test_results.map Prod.fst →
        (add_test_result g name r fr).test_results.map Prod.fst
          = g.test_results.map Prod.fst ∧
        (add_test_result g name r fr).test_results.length
          = g.test_results.length)) ∧
    (∀ ops : List (String × TestResultR × String),
      (applyTestResults ops initReportGen).test_results.length
        = (ops.map (fun o => o.1)).dedup.length) := by
  constructor
  · intro g name r fr
    refine ⟨dictLookup_dictInsert_self _ _ _, dictLookup_dictInsert_self _ _ _, ?_⟩
    intro hmem
    have hk : (add_test_result g name r fr).test_results.map Prod.fst
        = g.test_results.map Prod.fst := by
      show (dictInsert g.test_results name r).map Prod.fst = _
      rw [keys_dictInsert]
      simp [hmem]
    refine ⟨hk, ?_⟩
    have := congrArg List.length hk
    simpa using this
  · intro ops
    have hnodup : ((applyTestResults ops initReportGen).test_results.map Prod.fst).Nodup :=
      nodup_keys_applyTestResults ops initReportGen (by simp [initReportGen])
    have hfin := toFinset_keys_applyTestResults ops initReportGen
    have hlen : (applyTestResults ops initReportGen).test_results.length
        = ((applyTestResults ops initReportGen).test_results.map Prod.fst).length := by
      simp
    rw [hlen, ← List.toFinset_card_of_nodup hnodup, hfin]
    simp [initReportGen, List.card_toFinset]

theorem afterFullCheck_pressed (s : KbState) : (afterFullCheck s).pressed = s.pressed := by
  unfold afterFullCheck
  split <;> rfl

theorem afterFullCheck_success (s : KbState) : (afterFullCheck s).success = s.success := by
  unfold afterFullCheck
  split <;> rfl

theorem kbStep_pressed (e : KbEvent) (s : KbState) :
    (kbStep e s).pressed = s.pressed ∪ eKeys e := by
  cases e with
  | virtualPress k =>
    simp only [kbStep, on_virtual_key_press, eKeys]
    cases hv : visualToLogical k with
    | some l => simp [afterFullCheck_pressed, updateCounter, markGroup]
    | none =>
      by_cases hk : k ∈ keyButtons ∧ k ∉ s.pressed
      · rw [if_pos hk, if_pos hk.1, afterFullCheck_pressed]
        show insert k s.pressed = s.pressed ∪ {k}
        rw [Finset.insert_eq, Finset.union_comm]
      · rw [if_neg hk]
        by_cases hkb : k ∈ keyButtons
        · have hp : k ∈ s.pressed := by
            by_contra hnp
            exact hk ⟨hkb, hnp⟩
          rw [if_pos hkb, Finset.union_eq_left.mpr (Finset.singleton_subset_iff.mpr hp)]
        · rw [if_neg hkb, Finset.union_empty]
  | physicalPress ks =>
    cases ks with
    | none => simp [kbStep, on_key_press, eKeys, afterFullCheck_pressed, updateCounter]
    | some k =>
      simp only [kbStep, on_key_press, eKeys]
      by_cases hl : k ∈ logicalNames
      · rw [if_pos hl, if_pos hl, afterFullCheck_pressed]
        rfl
      · rw [if_neg hl, if_neg hl]
        by_cases hkb : k ∈ keyButtons
        · rw [if_pos hkb, if_pos hkb, afterFullCheck_pressed]
          show insert k s.pressed = s.pressed ∪ {k}
          rw [Finset.insert_eq, Finset.union_comm]
        · rw [if_neg hkb, if_neg hkb, afterFullCheck_pressed, Finset.union_empty]
          rfl
  | clickComplete =>
    simp only [kbStep, kbClickComplete, eKeys]
    split <;> simp
  | clickSkip => simp [kbStep, kbClickSkip, eKeys]
  | closeWindow => simp [kbStep, kbCloseWindow, eKeys]

theorem afterUpdate_enabled (x : KbState) :
    (afterFullCheck (updateCounter x)).completeEnabled
      = decide (70 ≤ (afterFullCheck (updateCounter x)).pressed.card) := by
  unfold afterFullCheck updateCounter
  by_cases h : x.pressed.card = keyButtons.length
  · simp only [h, if_true]
    show true = decide (70 ≤ keyButtons.length)
    decide
  · simp [h]

theorem on_virtual_shape (k : String) (s : KbState) :
    (∃ x : KbState, on_virtual_key_press k s = afterFullCheck (updateCounter x)
      ∧ (on_virtual_key_press k s).success = s.success) ∨
    on_virtual_key_press k s = s := by
  unfold on_virtual_key_press
  cases visualToLogical k with
  | some l =>
    exact Or.inl ⟨markGroup l s, rfl, by rw [afterFullCheck_success]; rfl⟩
  | none =>
    by_cases hk : k ∈ keyButtons ∧ k ∉ s.pressed
    · rw [if_pos hk]
      exact Or.inl ⟨_, rfl, by rw [afterFullCheck_success]; rfl⟩

    · rw [if_neg hk]
      exact Or.inr rfl

theorem on_key_press_shape (ks : Option String) (s : KbState) :
    ∃ x : KbState, on_key_press ks s = afterFullCheck (updateCounter x)
      ∧ (on_key_press ks s).success = s.success := by
  cases ks with
  | none => exact ⟨s, rfl, by show (afterFullCheck (updateCounter s)).success = _; rw [afterFullCheck_success]; rfl⟩
  | some k =>
    show ∃ x, (if k ∈ logicalNames then afterFullCheck (updateCounter (markGroup k s))
        else afterFullCheck (updateCounter (if k ∈ keyButtons then
          { s with pressed := insert k s.pressed } else s)))
        = afterFullCheck (updateCounter x) ∧
      (if k ∈ logicalNames then afterFullCheck (updateCounter (markGroup k s))
        else afterFullCheck (updateCounter (if k ∈ keyButtons then
          { s with pressed := insert k s.pressed } else s))).success = s.success
    by_cases hl : k ∈ logicalNames
    · rw [if_pos hl]
      exact ⟨markGroup k s, rfl, by rw [afterFullCheck_success]; rfl⟩
    · rw [if_neg hl]
      refine ⟨if k ∈ keyButtons then
          { s with pressed := insert k s.pressed } else s, rfl, ?_⟩
      rw [afterFullCheck_success]
      by_cases hkb : k ∈ keyButtons
      · rw [if_pos hkb]
        rfl
      · rw [if_neg hkb]
        rfl

theorem kbStep_enabled (e : KbEvent) (s : KbState)
    (h : s.completeEnabled = decide (70 ≤ s.pressed.card)) :
    (kbStep e s).completeEnabled = decide (70 ≤ (kbStep e s).pressed.card) := by
  cases e with
  | virtualPress k =>
    show (on_virtual_key_press k s).completeEnabled
      = decide (70 ≤ (on_virtual_key_press k s).pressed.card)
    rcases on_virtual_shape k s with ⟨x, hx, _⟩ | hx
    · rw [hx]
      exact afterUpdate_enabled x
    · rw [hx]
      exact h
  | physicalPress ks =>
    show (on_key_press ks s).completeEnabled
      = decide (70 ≤ (on_key_press ks s).pressed.card)
    rcases on_key_press_shape ks s with ⟨x, hx, _⟩
    rw [hx]
    exact afterUpdate_enabled x
  | clickComplete =>
    simp only [kbStep, kbClickComplete]
    split
    · simpa using h
    · exact h
  | clickSkip => simpa [kbStep, kbClickSkip] using h
  | closeWindow => simpa [kbStep, kbCloseWindow] using h

theorem kbStep_success_press (s : KbState) :
    (∀ k, (on_virtual_key_press k s).success = s.success) ∧
    (∀ ks, (on_key_press ks s).success = s.success) := by
  constructor
  · intro k
    rcases on_virtual_shape k s with ⟨x, _, hsucc⟩ | hx
    · exact hsucc
    · rw [hx]
  · intro ks
    exact (on_key_press_shape ks s).choose_spec.2

theorem kbState_eq (a b : KbState) (h1 : a.pressed = b.pressed)
    (h2 : a.completeEnabled = b.completeEnabled) (h3 : a.success = b.success) :
    a = b := by
  cases a
  cases b
  simp_all

/-- Every visual key with the Backslash logic is the Backslash key itself. -/
theorem backslash_group_singleton :
    ∀ v2 ∈ keyButtons, visualToLogical v2 = some "Backslash" → v2 = "Backslash" := by
  decide

/-- The logical modifier names are not themselves visual buttons. -/
theorem logicalNames_not_buttons : ∀ x ∈ logicalNames, x ∉ keyButtons := by
  decide

theorem mem_eKeys_virtual_some {v k l0 : String}
    (hvt : visualToLogical k = some l0)
    (hvk : v ∈ eKeys (KbEvent.virtualPress k)) :
    v ∈ keyButtons ∧ visualToLogical v = some l0 := by
  simp only [eKeys, hvt] at hvk
  have := List.mem_filter.mp (List.mem_toFinset.mp hvk)
  exact ⟨this.1, by simpa using this.2⟩

theorem mem_eKeys_virtual_none {v k : String}
    (hvt : visualToLogical k = none)
    (hvk : v ∈ eKeys (KbEvent.virtualPress k)) :
    v = k ∧ k ∈ keyButtons := by
  simp only [eKeys, hvt] at hvk
  by_cases hkb : k ∈ keyButtons
  · rw [if_pos hkb] at hvk
    exact ⟨Finset.mem_singleton.mp hvk, hkb⟩
  · rw [if_neg hkb] at hvk
    exact absurd hvk (by simp)

theorem mem_eKeys_physical_logical {v k : String}
    (hl : k ∈ logicalNames)
    (hvk : v ∈ eKeys (KbEvent.physicalPress (some k))) :
    v ∈ keyButtons ∧ visualToLogical v = some k := by
  simp only [eKeys, if_pos hl] at hvk
  have := List.mem_filter.mp (List.mem_toFinset.mp hvk)
  exact ⟨this.1, by simpa using this.2⟩

theorem mem_eKeys_physical_general {v k : String}
    (hl : k ∉ logicalNames)
    (hvk : v ∈ eKeys (KbEvent.physicalPress (some k))) :
    v = k ∧ k ∈ keyButtons := by
  simp only [eKeys, if_neg hl] at hvk
  by_cases hkb : k ∈ keyButtons
  · rw [if_pos hkb] at hvk
    exact ⟨Finset.mem_singleton.mp hvk, hkb⟩
  · rw [if_neg hkb] at hvk
    exact absurd hvk (by simp)

theorem group_mem_eKeys_virtual {v2 k l0 : String}
    (hvt : visualToLogical k = some l0)
    (hv2 : v2 ∈ keyButtons) (hv2l : visualToLogical v2 = some l0) :
    v2 ∈ eKeys (KbEvent.virtualPress k) := by
  simp only [eKeys, hvt]
  exact List.mem_toFinset.mpr (List.mem_filter.mpr ⟨hv2, by simpa using hv2l⟩)

theorem group_mem_eKeys_physical {v2 k : String}
    (hl : k ∈ logicalNames)
    (hv2 : v2 ∈ keyButtons) (hv2l : visualToLogical v2 = some k) :
    v2 ∈ eKeys (KbEvent.physicalPress (some k)) := by
  simp only [eKeys, if_pos hl]
  exact List.mem_toFinset.mpr (List.mem_filter.mpr ⟨hv2, by simpa using hv2l⟩)

theorem kbStep_groups (e : KbEvent) (s : KbState) (hval : validEvent e)
    (hg : ∀ v ∈ s.pressed, ∀ l, visualToLogical v = some l →
      ∀ v2 ∈ keyButtons, visualToLogical v2 = some l → v2 ∈ s.pressed) :
    ∀ v ∈ (kbStep e s).pressed, ∀ l, visualToLogical v = some l →
      ∀ v2 ∈ keyButtons, visualToLogical v2 = some l → v2 ∈ (kbStep e s).pressed := by
  intro v hv l hvl v2 hv2 hv2l
  rw [kbStep_pressed] at hv ⊢
  rcases Finset.mem_union.mp hv with hvp | hvk
  · exact Finset.mem_union_left _ (hg v hvp l hvl v2 hv2 hv2l)
  · apply Finset.mem_union_right
    cases e with
    | virtualPress k =>
      cases hvt : visualToLogical k with
      | some l0 =>
        obtain ⟨-, hvl0⟩ := mem_eKeys_virtual_some hvt hvk
        have hll0 : l = l0 := by
          rw [hvl0] at hvl
          exact (Option.some.inj hvl).symm
        subst hll0
        exact group_mem_eKeys_virtual hvt hv2 hv2l
      | none =>
        obtain ⟨rfl, -⟩ := mem_eKeys_virtual_none hvt hvk
        rw [hvt] at hvl
        exact absurd hvl (by simp)
    | physicalPress ks =>
      cases ks with
      | none => simp [eKeys] at hvk
      | some k =>
        by_cases hl0 : k ∈ logicalNames
        · obtain ⟨-, hvl0⟩ := mem_eKeys_physical_logical hl0 hvk
          have hlk : l = k := by
            rw [hvl0] at hvl
            exact (Option.some.inj hvl).symm
          subst hlk
          exact group_mem_eKeys_physical hl0 hv2 hv2l
        · obtain ⟨rfl, hkb⟩ := mem_eKeys_physical_general hl0 hvk
          have hnone : dictLookup dualVisuals v = none := hval
          have hbs : v = "Backslash" := by
            unfold visualToLogical at hvl
            rw [hnone] at hvl
            by_cases hb : v = "Backslash"
            · exact hb
            · rw [if_neg hb] at hvl
              exact absurd hvl (by simp)
          have hlbs : l = "Backslash" := by
            rw [hbs] at hvl
            unfold visualToLogical at hvl
            have : dictLookup dualVisuals "Backslash" = none := by decide
            rw [this] at hvl
            simpa using hvl.symm
          have hv2bs : v2 = "Backslash" :=
            backslash_group_singleton v2 hv2 (hlbs ▸ hv2l)
          have : v2 = v := hv2bs.trans hbs.symm
          rw [this]
          exact hvk
    | clickComplete => simp [eKeys] at hvk
    | clickSkip => simp [eKeys] at hvk
    | closeWindow => simp [eKeys] at hvk

theorem eKeys_subset_buttons (e : KbEvent) : ∀ v ∈ eKeys e, v ∈ keyButtons := by
  intro v hv
  cases e with
  | virtualPress k =>
    cases hvt : visualToLogical k with
    | some l => exact (mem_eKeys_virtual_some hvt hv).1
    | none =>
      obtain ⟨rfl, hkb⟩ := mem_eKeys_virtual_none hvt hv
      exact hkb
  | physicalPress ks =>
    cases ks with
    | none => simp [eKeys] at hv
    | some k =>
      by_cases hl : k ∈ logicalNames
      · exact (mem_eKeys_physical_logical hl hv).1
      · obtain ⟨rfl, hkb⟩ := mem_eKeys_physical_general hl hv
        exact hkb
  | clickComplete => simp [eKeys] at hv
  | clickSkip => simp [eKeys] at hv
  | closeWindow => simp [eKeys] at hv

theorem kbInv_step (e : KbEvent) (s : KbState) (hval : validEvent e)
    (hinv : KbInv s) : KbInv (kbStep e s) := by
  refine ⟨kbStep_enabled e s hinv.1, kbStep_groups e s hval hinv.2.1, ?_⟩
  intro v hv
  rw [kbStep_pressed] at hv
  rcases Finset.mem_union.mp hv with h | h
  · exact hinv.2.2 v h
  · exact eKeys_subset_buttons e v h

theorem kbReach_inv : ∀ s : KbState, KbReach s → KbInv s := by
  intro s h
  induction h with
  | init =>
    refine ⟨by decide, ?_, ?_⟩
    · intro v hv
      simp [kbInit] at hv
    · intro v hv
      simp [kbInit] at hv
  | step s e hval _ ih => exact kbInv_step e s hval ih

theorem kbPress_fixed (s : KbState) (hinv : KbInv s) (e : KbEvent)
    (hpress : (∃ k, e = KbEvent.virtualPress k) ∨ ∃ ks, e = KbEvent.physicalPress ks)
    (hsub : eKeys e ⊆ s.pressed) : kbStep e s = s := by
  apply kbState_eq
  · rw [kbStep_pressed]
    exact Finset.union_eq_left.mpr hsub
  · rw [kbStep_enabled e s hinv.1, kbStep_pressed, Finset.union_eq_left.mpr hsub]
    exact hinv.1.symm
  · rcases hpress with ⟨k, rfl⟩ | ⟨ks, rfl⟩
    · exact (kbStep_success_press s).1 k
    · exact (kbStep_success_press s).2 ks

/-- C9: on any reachable keyboard-test state, a press — virtual button
click or physical key press — of a key already in the pressed set leaves
the state (pressed set, unique-press count, completion eligibility)
unchanged; repeating any event is idempotent; and no event removes a
pressed key, so the unique-press count never decreases. -/
theorem keyboard_press_idempotent :
    (∀ s : KbState, KbReach s → ∀ k : String, k ∈ s.pressed →
      on_virtual_key_press k s = s ∧ on_key_press (some k) s = s) ∧
    (∀ (s : KbState) (e : KbEvent), KbReach s → validEvent e →
      kbStep e (kbStep e s) = kbStep e s) ∧
    (∀ (s : KbState) (e : KbEvent), s.pressed ⊆ (kbStep e s).pressed) ∧
    (∀ (s : KbState) (e : KbEvent), s.pressed.card ≤ (kbStep e s).pressed.card) := by
  refine ⟨?_, ?_, ?_, ?_⟩
  · intro s hreach k hk
    have hinv := kbReach_inv s hreach
    constructor
    · apply kbPress_fixed s hinv (KbEvent.virtualPress k) (Or.inl ⟨k, rfl⟩)
      intro v hv
      cases hvt : visualToLogical k with
      | some l =>
        obtain ⟨hvkb, hvl⟩ := mem_eKeys_virtual_some hvt hv
        exact hinv.2.1 k hk l hvt v hvkb hvl
      | none =>
        obtain ⟨rfl, -⟩ := mem_eKeys_virtual_none hvt hv
        exact hk
    · apply kbPress_fixed s hinv (KbEvent.physicalPress (some k)) (Or.inr ⟨some k, rfl⟩)
      intro v hv
      have hkkb : k ∈ keyButtons := hinv.2.2 k hk
      have hknl : k ∉ logicalNames := fun hin => logicalNames_not_buttons k hin hkkb
      obtain ⟨rfl, -⟩ := mem_eKeys_physical_general hknl hv
      exact hk
  · intro s e hreach hval
    have hinv' : KbInv (kbStep e s) := kbInv_step e s hval (kbReach_inv s hreach)
    have hsub : eKeys e ⊆ (kbStep e s).pressed := by
      rw [kbStep_pressed]
      exact Finset.subset_union_right
    cases e with
    | virtualPress k => exact kbPress_fixed _ hinv' _ (Or.inl ⟨k, rfl⟩) hsub
    | physicalPress ks => exact kbPress_fixed _ hinv' _ (Or.inr ⟨ks, rfl⟩) hsub
    | clickComplete =>
      show kbClickComplete (kbClickComplete s) = kbClickComplete s
      unfold kbClickComplete
      cases hen : s.completeEnabled <;> simp [hen]
    | clickSkip => rfl
    | closeWindow => rfl
  · intro s e
    rw [kbStep_pressed]
    exact Finset.subset_union_left
  · intro s e
    rw [kbStep_pressed]
    exact Finset.card_le_card Finset.subset_union_left

/-- C9 witness: `keyboard_press_idempotent` applied to the state reached
by pressing Q once: pressing Q again changes nothing. -/
theorem keyboard_press_idempotent_witness :
    on_virtual_key_press "Q" (kbStep (KbEvent.virtualPress "Q") kbInit)
      = kbStep (KbEvent.virtualPress "Q") kbInit := by
  have hreach : KbReach (kbStep (KbEvent.virtualPress "Q") kbInit) :=
    KbReach.step kbInit (KbEvent.virtualPress "Q") trivial KbReach.init
  have hmem : "Q" ∈ (kbStep (KbEvent.virtualPress "Q") kbInit).pressed := by
    rw [kbStep_pressed]
    have hq : "Q" ∈ eKeys (KbEvent.virtualPress "Q") := by decide
    exact Finset.mem_union_right _ hq
  exact (keyboard_press_idempotent.1 _ hreach "Q" hmem).1

theorem usb_success_source : ∀ (trace : List USBEvent) (s : USBState),
    (trace.foldl (fun s e => usbStep e s) s).success = true →
    s.success = true ∨ ∃ e ∈ trace, usbGoodEvent e := by
  intro trace
  induction trace with
  | nil => exact fun s h => Or.inl h
  | cons e t ih =>
    intro s h
    rcases ih (usbStep e s) h with h1 | ⟨e1, he1, hg⟩
    · cases e with
      | measurementDone passes =>
        refine Or.inr ⟨_, List.mem_cons_self _ _, ?_⟩
        show (run_advanced_test passes).all_integrity = true
        exact h1
      | measurementError => exact absurd h1 (by simp [usbStep])
      | clickComplete =>
        by_cases hen : s.completeEnabled = true
        · exact Or.inr ⟨_, List.mem_cons_self _ _, trivial⟩
        · rw [show usbStep USBEvent.clickComplete s = s by
            simp [usbStep, hen]] at h1
          exact Or.inl h1
      | clickSkip => exact absurd h1 (by simp [usbStep])
      | closeWindow => exact absurd h1 (by simp [usbStep])
    · exact Or.inr ⟨e1, List.mem_cons_of_mem _ he1, hg⟩

theorem kb_success_source : ∀ (trace : List KbEvent) (s : KbState),
    (trace.foldl (fun s e => kbStep e s) s).success = true →
    s.success = true ∨ KbEvent.clickComplete ∈ trace := by
  intro trace
  induction trace with
  | nil => exact fun s h => Or.inl h
  | cons e t ih =>
    intro s h
    rcases ih (kbStep e s) h with h1 | h1
    · cases e with
      | virtualPress k =>
        rw [show (kbStep (KbEvent.virtualPress k) s).success = s.success from
          (kbStep_success_press s).1 k] at h1
        exact Or.inl h1
      | physicalPress ks =>
        rw [show (kbStep (KbEvent.physicalPress ks) s).success = s.success from
          (kbStep_success_press s).2 ks] at h1
        exact Or.inl h1
      | clickComplete => exact Or.inr (List.mem_cons_self _ _)
      | clickSkip => exact absurd h1 (by simp [kbStep, kbClickSkip])
      | closeWindow => exact absurd h1 (by simp [kbStep, kbCloseWindow])
    · exact Or.inr (List.mem_cons_of_mem _ h1)

theorem webcam_success_source : ∀ (trace : List WebcamEvent) (s : WebcamState),
    (trace.foldl (fun s e => webcamStep e s) s).success = true →
    s.success = true ∨ WebcamEvent.confirm true ∈ trace := by
  intro trace
  induction trace with
  | nil => exact fun s h => Or.inl h
  | cons e t ih =>
    intro s h
    rcases ih (webcamStep e s) h with h1 | h1
    · cases e with
      | confirm ok =>
        cases ok with
        | true => exact Or.inr (List.mem_cons_self _ _)
        | false => exact absurd h1 (by simp [webcamStep])
      | captureError => exact Or.inl h1
      | clickComplete =>
        by_cases hen : s.completeEnabled = true
        · rw [show webcamStep WebcamEvent.clickComplete s
              = { s with is_completed := true } by simp [webcamStep, hen]] at h1
          exact Or.inl h1
        · rw [show webcamStep WebcamEvent.clickComplete s = s by
            simp [webcamStep, hen]] at h1
          exact Or.inl h1
      | clickSkip => exact absurd h1 (by simp [webcamStep])
      | closeWindow => exact absurd h1 (by simp [webcamStep])
    · exact Or.inr (List.mem_cons_of_mem _ h1)

theorem audio_success_source : ∀ (trace : List AudioEvent) (s : AudioState),
    (trace.foldl (fun s e => audioStep e s) s).success = true →
    s.success = true ∨ AudioEvent.confirm true ∈ trace := by
  intro trace
  induction trace with
  | nil => exact fun s h => Or.inl h
  | cons e t ih =>
    intro s h
    rcases ih (audioStep e s) h with h1 | h1
    · cases e with
      | confirm ok =>
        cases ok with
        | true => exact Or.inr (List.mem_cons_self _ _)
        | false => exact absurd h1 (by simp [audioStep])
      | recordError => exact Or.inl h1
      | playError => exact Or.inl h1
      | clickComplete =>
        by_cases hen : s.completeEnabled = true
        · rw [show audioStep AudioEvent.clickComplete s
              = { s with is_completed := true } by simp [audioStep, hen]] at h1
          exact Or.inl h1
        · rw [show audioStep AudioEvent.clickComplete s = s by
            simp [audioStep, hen]] at h1
          exact Or.inl h1
      | clickSkip => exact absurd h1 (by simp [audioStep])
      | closeWindow => exact absurd h1 (by simp [audioStep])
    · exact Or.inr (List.mem_cons_of_mem _ h1)

/-- C1: in each of the four test modules, a run whose final result has
`success = true` must contain either an objective measurement that passed
(the USB run's integrity checks all succeeding) or an explicit user
action asserting success (the USB/keyboard Concluir click, reachable only
once the measurement phase finished or enough keys were pressed, or the
webcam/audio Sim answer); no event sequence — error paths included —
yields a successful result without one of these. -/
theorem test_success_requires_cause :
    (∀ trace : List USBEvent,
      (trace.foldl (fun s e => usbStep e s) usbInit).success = true →
      ∃ e ∈ trace, usbGoodEvent e) ∧
    (∀ trace : List KbEvent,
      (trace.foldl (fun s e => kbStep e s) kbInit).success = true →
      KbEvent.clickComplete ∈ trace) ∧
    (∀ trace : List WebcamEvent,
      (trace.foldl (fun s e => webcamStep e s) webcamInit).success = true →
      WebcamEvent.confirm true ∈ trace) ∧
    (∀ trace : List AudioEvent,
      (trace.foldl (fun s e => audioStep e s) audioInit).success = true →
      AudioEvent.confirm true ∈ trace) := by
  refine ⟨?_, ?_, ?_, ?_⟩
  · intro trace h
    rcases usb_success_source trace usbInit h with h1 | h1
    · exact absurd h1 (by simp [usbInit])
    · exact h1
  · intro trace h
    rcases kb_success_source trace kbInit h with h1 | h1
    · exact absurd h1 (by simp [kbInit])
    · exact h1
  · intro trace h
    rcases webcam_success_source trace webcamInit h with h1 | h1
    · exact absurd h1 (by simp [webcamInit])
    · exact h1
  · intro trace h
    rcases audio_success_source trace audioInit h with h1 | h1
    · exact absurd h1 (by simp [audioInit])
    · exact h1

/-- C1 witness: `test_success_requires_cause` on two concrete successful
runs — a USB run whose single pass's hashes match, and a webcam run the
user answered Sim to. -/
theorem test_success_requires_cause_witness :
    (∃ e ∈ [USBEvent.measurementDone
        [{ originalHash := "aa", copiedHash := "aa", writeSpeed := 120, readSpeed := 300 }]],
      usbGoodEvent e) ∧
    WebcamEvent.confirm true ∈ [WebcamEvent.confirm true] :=
  ⟨test_success_requires_cause.1 _ (by decide),
   test_success_requires_cause.2.2.1 _ (by decide)⟩

theorem execNextAux_inv (initOk : TestId → Bool) (q : List TestId) :
    ∀ s : OrchState, s.runningCount = 0 → s.tests_running = true →
      OrchInv (execNextAux initOk q s) := by
  induction q with
  | nil =>
    intro s h0 _
    exact ⟨by simp [execNextAux, h0], by simp [execNextAux, h0]⟩
  | cons t rest ih =>
    intro s h0 h1
    by_cases hk : isKnownTest t ∧ initOk t
    · refine ⟨?_, ?_⟩ <;> simp [execNextAux, hk, h0, h1]
    · simpa [execNextAux, hk] using ih s h0 h1

theorem execNextAux_flag_clear (initOk : TestId → Bool) (q : List TestId) :
    ∀ s : OrchState, s.tests_running = true →
      (execNextAux initOk q s).tests_running = false →
      (execNextAux initOk q s).queue = [] := by
  induction q with
  | nil => intro s _ _; simp [execNextAux]
  | cons t rest ih =>
    intro s h1 hf
    by_cases hk : isKnownTest t ∧ initOk t
    · rw [execNextAux] at hf
      simp only [hk, if_true] at hf
      exact absurd hf (by simp [h1])
    · rw [execNextAux] at hf ⊢
      simp only [hk, if_false] at hf ⊢
      exact ih s h1 hf

theorem orch_inv_reachable : ∀ s : OrchState, OrchReach s → OrchInv s := by
  intro s h
  induction h with
  | init => exact ⟨by simp [initOrch], by simp [initOrch]⟩
  | run s identValid selected initOk _ ih =>
    unfold run_selected_tests
    by_cases hv : identValid = false
    · simpa [hv] using ih
    · simp only [hv, if_false]
      by_cases hsel : selected = []
      · simpa [hsel] using ih
      · simp only [hsel, if_false]
        by_cases hr : s.tests_running
        · simpa [hr] using ih
        · simp only [hr, if_false]
          have hflag : s.tests_running = false := by
            cases hb : s.tests_running
            · rfl
            · exact absurd hb hr
          have h0 : s.runningCount = 0 := by
            rcases Nat.lt_or_ge s.runningCount 1 with h | h
            · omega
            · have h1 : s.runningCount = 1 := le_antisymm ih.1 h
              rw [ih.2 h1] at hflag
              exact absurd hflag (by simp)
          exact execNextAux_inv initOk selected _ h0 rfl
  | complete s initOk t ok _ ih =>
    unfold handle_test_completion
    by_cases h0 : s.runningCount = 0
    · simpa [h0] using ih
    · simp only [h0, if_false]
      have h1 : s.runningCount = 1 := by
        have := ih.1
        omega
      have hflag := ih.2 h1
      exact execNextAux_inv initOk _ _ (by simp [h1]) hflag

/-- C2: at most one peripheral test is executing in any reachable
orchestrator state; requesting a run while one is in progress is a no-op
(the state is unchanged); and a completion clears the running flag only
when it drains the queue. -/
theorem orchestrator_single_flight :
    (∀ s : OrchState, OrchReach s → s.runningCount ≤ 1) ∧
    (∀ (s : OrchState) (identValid : Bool) (selected : List TestId)
        (initOk : TestId → Bool), s.tests_running = true →
      run_selected_tests identValid selected initOk s = s) ∧
    (∀ (s : OrchState) (initOk : TestId → Bool) (t : TestId) (ok : Bool),
      OrchReach s → s.tests_running = true →
      (handle_test_completion initOk t ok s).tests_running = false →
      (handle_test_completion initOk t ok s).queue = []) := by
  refine ⟨?_, ?_, ?_⟩
  · intro s h
    exact (orch_inv_reachable s h).1
  · intro s identValid selected initOk h
    unfold run_selected_tests
    by_cases hv : identValid = false
    · simp [hv]
    · by_cases hsel : selected = [] <;> simp [hv, hsel, h]
  · intro s initOk t ok hreach h hf
    unfold handle_test_completion at hf ⊢
    by_cases h0 : s.runningCount = 0
    · rw [if_pos h0] at hf
      exact absurd hf (by simp [h])
    · rw [if_neg h0] at hf ⊢
      exact execNextAux_flag_clear initOk _ _ h hf

/-- C2 witness: `orchestrator_single_flight` at concrete states: the state
reached by starting a one-test run has at most one test executing, and
re-requesting a run in a running state leaves it unchanged. -/
theorem orchestrator_single_flight_witness :
    (run_selected_tests true [TestId.usb] (fun _ => true) initOrch).runningCount ≤ 1 ∧
    run_selected_tests true [TestId.usb] (fun _ => true)
        { tests_running := true, queue := [], runningCount := 1, results := [] }
      = { tests_running := true, queue := [], runningCount := 1, results := [] } :=
  ⟨orchestrator_single_flight.1 _
      (OrchReach.run initOrch true [TestId.usb] (fun _ => true) OrchReach.init),
   orchestrator_single_flight.2.1 _ true [TestId.usb] (fun _ => true) rfl⟩

/-- C3 counterexample: in an execution in which every sub-query fails (all
commands return empty output, all library calls raise), the Bluetooth
category does not degrade to its "not available" defaults: the
`device_status` field is bound to the empty string — the capitalization of
the failed query's empty output — rather than to the placeholder, so the
claim that every failure degrades to the placeholder is false. -/
theorem hardware_failure_placeholder_cex :
    (get_all_info envAllFail).bluetooth.device_status = "" ∧
    (get_all_info envAllFail).bluetooth ≠ btDefault := by
  constructor
  · rfl
  · decide

/-- C3 amended: every category getter is a total function whose result
carries all declared fields (no exception reaches the caller: each Python
raise point is a constructor case handled in the definitions), each
category of the snapshot depends only on its own queries (failures are
isolated), and when a category's queries fail the category equals its
"not available" default record — except that the Bluetooth record's
`device_status` is then the empty string, the capitalization of the failed
query's output, instead of the placeholder. -/
theorem hardware_collect_degrades :
    (∀ e : HWEnv, e.mbJson.failed → e.biosSerial = "" →
      (get_all_info e).motherboard = mbDefault) ∧
    (∀ e : HWEnv, (e.cpuinfoAvailable = false ∨ e.cpuBrandRaw = .raises) →
      e.wmicCpuName = "" → (get_all_info e).cpu = cpuDefault) ∧
    (∀ e : HWEnv, (e.ramJson.failed ∨ e.ramJson = .ok none) →
      (get_all_info e).ram = ramDefault) ∧
    (∀ e : HWEnv, e.wmicDiskDrive = "" → (get_all_info e).disks = []) ∧
    (∀ e : HWEnv, e.wmicVideo = "" → (get_all_info e).gpu = []) ∧
    (∀ e : HWEnv,
      (e.screeninfoAvailable = false ∨ e.monitors = .raises ∨ e.monitors = .returns []) →
      (get_all_info e).display = displayDefault) ∧
    (∀ e : HWEnv, e.tpmJson.failed → (get_all_info e).tpm = tpmDefault) ∧
    (∀ e : HWEnv, e.is_windows = true → e.btServiceStatus = "" →
      e.btDeviceManufacturer = "" →
      (get_all_info e).bluetooth = { device_name := naStr, device_status := "" }) ∧
    (∀ e : HWEnv, e.wifiAdapterName = "" → e.wifiAdapterStatus = "" →
      e.wifiSsid = "" → (get_all_info e).wifi = wifiDefault) ∧
    (∀ e1 e2 : HWEnv, e1.is_windows = e2.is_windows → e1.mbJson = e2.mbJson →
      e1.biosSerial = e2.biosSerial →
      (get_all_info e1).motherboard = (get_all_info e2).motherboard) ∧
    (∀ e1 e2 : HWEnv, e1.is_windows = e2.is_windows →
      e1.cpuinfoAvailable = e2.cpuinfoAvailable → e1.cpuBrandRaw = e2.cpuBrandRaw →
      e1.wmicCpuName = e2.wmicCpuName →
      (get_all_info e1).cpu = (get_all_info e2).cpu) ∧
    (∀ e1 e2 : HWEnv, e1.is_windows = e2.is_windows → e1.ramJson = e2.ramJson →
      (get_all_info e1).ram = (get_all_info e2).ram) ∧
    (∀ e1 e2 : HWEnv, e1.is_windows = e2.is_windows →
      e1.wmicDiskDrive = e2.wmicDiskDrive →
      (get_all_info e1).disks = (get_all_info e2).disks) ∧
    (∀ e1 e2 : HWEnv, e1.is_windows = e2.is_windows → e1.wmicVideo = e2.wmicVideo →
      (get_all_info e1).gpu = (get_all_info e2).gpu) ∧
    (∀ e1 e2 : HWEnv, e1.screeninfoAvailable = e2.screeninfoAvailable →
      e1.monitors = e2.monitors →
      (get_all_info e1).display = (get_all_info e2).display) ∧
    (∀ e1 e2 : HWEnv, e1.is_windows = e2.is_windows → e1.tpmJson = e2.tpmJson →
      (get_all_info e1).tpm = (get_all_info e2).tpm) ∧
    (∀ e1 e2 : HWEnv, e1.is_windows = e2.is_windows →
      e1.btServiceStatus = e2.btServiceStatus →
      e1.btDeviceManufacturer = e2.btDeviceManufacturer →
      (get_all_info e1).bluetooth = (get_all_info e2).bluetooth) ∧
    (∀ e1 e2 : HWEnv, e1.is_windows = e2.is_windows →
      e1.wifiAdapterName = e2.wifiAdapterName →
      e1.wifiAdapterStatus = e2.wifiAdapterStatus → e1.wifiSsid = e2.wifiSsid →
      (get_all_info e1).wifi = (get_all_info e2).wifi) := by
  refine ⟨?_, ?_, ?_, ?_, ?_, ?_, ?_, ?_, ?_, ?_, ?_, ?_, ?_, ?_, ?_, ?_, ?_, ?_⟩
  · intro e hq hs
    show get_motherboard_info e.is_windows e.mbJson e.biosSerial = mbDefault
    rw [hs]
    cases hm : e.mbJson with
    | empty => cases e.is_windows <;> rfl
    | malformed => cases e.is_windows <;> rfl
    | ok d => rw [hm] at hq; exact hq.elim
  · intro e hav hw
    show get_cpu_info e.is_windows e.cpuinfoAvailable e.cpuBrandRaw e.wmicCpuName = cpuDefault
    rw [hw]
    rcases hav with h | h
    · rw [h]; cases e.is_windows <;> rfl
    · rw [h]; cases e.is_windows <;> cases e.cpuinfoAvailable <;> rfl
  · intro e hq
    show get_ram_info e.is_windows e.ramJson = ramDefault
    rcases hq with hq | hq
    · cases hm : e.ramJson with
      | empty => cases e.is_windows <;> rfl
      | malformed => cases e.is_windows <;> rfl
      | ok d => rw [hm] at hq; exact hq.elim
    · rw [hq]; cases e.is_windows <;> rfl
  · intro e hw
    show get_disk_info e.is_windows e.wmicDiskDrive = []
    rw [hw]; cases e.is_windows <;> rfl
  · intro e hw
    show get_gpu_info e.is_windows e.wmicVideo = []
    rw [hw]; cases e.is_windows <;> rfl
  · intro e hq
    show get_display_info e.screeninfoAvailable e.monitors = displayDefault
    rcases hq with h | h | h
    · rw [h]; rfl
    · rw [h]; cases e.screeninfoAvailable <;> rfl
    · rw [h]; cases e.screeninfoAvailable <;> rfl
  · intro e hq
    show get_tpm_info e.is_windows e.tpmJson = tpmDefault
    cases hm : e.tpmJson with
    | empty => cases e.is_windows <;> rfl
    | malformed => cases e.is_windows <;> rfl
    | ok d => rw [hm] at hq; exact hq.elim
  · intro e hwin hs hd
    show get_bluetooth_info e.is_windows e.btServiceStatus e.btDeviceManufacturer = _
    rw [hwin, hs, hd]; rfl
  · intro e h1 h2 h3
    show get_wifi_info e.is_windows e.wifiAdapterName e.wifiAdapterStatus e.wifiSsid
        = wifiDefault
    rw [h1, h2, h3]; cases e.is_windows <;> rfl
  · intro e1 e2 h1 h2 h3
    show get_motherboard_info e1.is_windows e1.mbJson e1.biosSerial
        = get_motherboard_info e2.is_windows e2.mbJson e2.biosSerial
    rw [h1, h2, h3]
  · intro e1 e2 h1 h2 h3 h4
    show get_cpu_info e1.is_windows e1.cpuinfoAvailable e1.cpuBrandRaw e1.wmicCpuName
        = get_cpu_info e2.is_windows e2.cpuinfoAvailable e2.cpuBrandRaw e2.wmicCpuName
    rw [h1, h2, h3, h4]
  · intro e1 e2 h1 h2
    show get_ram_info e1.is_windows e1.ramJson = get_ram_info e2.is_windows e2.ramJson
    rw [h1, h2]
  · intro e1 e2 h1 h2
    show get_disk_info e1.is_windows e1.wmicDiskDrive
        = get_disk_info e2.is_windows e2.wmicDiskDrive
    rw [h1, h2]
  · intro e1 e2 h1 h2
    show get_gpu_info e1.is_windows e1.wmicVideo = get_gpu_info e2.is_windows e2.wmicVideo
    rw [h1, h2]
  · intro e1 e2 h1 h2
    show get_display_info e1.screeninfoAvailable e1.monitors
        = get_display_info e2.screeninfoAvailable e2.monitors
    rw [h1, h2]
  · intro e1 e2 h1 h2
    show get_tpm_info e1.is_windows e1.tpmJson = get_tpm_info e2.is_windows e2.tpmJson
    rw [h1, h2]
  · intro e1 e2 h1 h2 h3
    show get_bluetooth_info e1.is_windows e1.btServiceStatus e1.btDeviceManufacturer
        = get_bluetooth_info e2.is_windows e2.btServiceStatus e2.btDeviceManufacturer
    rw [h1, h2, h3]
  · intro e1 e2 h1 h2 h3 h4
    show get_wifi_info e1.is_windows e1.wifiAdapterName e1.wifiAdapterStatus e1.wifiSsid
        = get_wifi_info e2.is_windows e2.wifiAdapterName e2.wifiAdapterStatus e2.wifiSsid
    rw [h1, h2, h3, h4]

/-- C3 witness: `hardware_collect_degrades` applied at the all-failing
environment: every category is at its placeholder defaults except the
amended Bluetooth record, whose status is the empty string. -/
theorem hardware_collect_degrades_witness :
    (get_all_info envAllFail).motherboard = mbDefault ∧
    (get_all_info envAllFail).cpu = cpuDefault ∧
    (get_all_info envAllFail).ram = ramDefault ∧
    (get_all_info envAllFail).disks = [] ∧
    (get_all_info envAllFail).gpu = [] ∧
    (get_all_info envAllFail).display = displayDefault ∧
    (get_all_info envAllFail).tpm = tpmDefault ∧
    (get_all_info envAllFail).bluetooth = { device_name := naStr, device_status := "" } ∧
    (get_all_info envAllFail).wifi = wifiDefault :=
  ⟨hardware_collect_degrades.1 envAllFail trivial rfl,
   hardware_collect_degrades.2.1 envAllFail (Or.inr rfl) rfl,
   hardware_collect_degrades.2.2.1 envAllFail (Or.inl trivial),
   hardware_collect_degrades.2.2.2.1 envAllFail rfl,
   hardware_collect_degrades.2.2.2.2.1 envAllFail rfl,
   hardware_collect_degrades.2.2.2.2.2.1 envAllFail (Or.inr (Or.inl rfl)),
   hardware_collect_degrades.2.2.2.2.2.2.1 envAllFail trivial,
   hardware_collect_degrades.2.2.2.2.2.2.2.1 envAllFail rfl rfl rfl,
   hardware_collect_degrades.2.2.2.2.2.2.2.2.1 envAllFail rfl rfl rfl⟩

/-- C10 witness: `duplicate_result_replaces` applied where the name "usb"
is recorded twice: the second result replaces the first and the recorded
total stays at the number of distinct names. -/
theorem duplicate_result_replaces_witness :
    (applyTestResults
        [("usb", { success := false, message := "f", error := none }, "d1"),
         ("usb", { success := true, message := "s", error := none }, "d2")]
        initReportGen).test_results.length
      = (["usb", "usb"].dedup).length := by
  have h := duplicate_result_replaces.2
    [("usb", { success := false, message := "f", error := none }, "d1"),
     ("usb", { success := true, message := "s", error := none }, "d2")]
  simpa using h

end DiagHW
